import Mathlib

/-!
Verification model of the decline-curve-analysis library.

Scalars are modelled as exact rationals (`ℚ`): every value in scope is a
finite IEEE-754 double and arithmetic is idealized as exact.  The
transcendental floating-point primitives (`exp`, `exp_m1`, `ln`, `ln_1p`,
`powf`, `sqrt`) are threaded through an `Ops` record whose only assumed
facts are exact IEEE-754 identities (`expm1(0) = 0`, `ln1p(0) = 0`,
`pow(1, y) = 1`).  The special values NaN, infinity and negative zero,
which `ℚ` cannot represent, are modelled separately in the `FloatModel`
namespace for the claims that depend on them.
-/

namespace DCA

/-- The error enumeration of the library (`DeclineCurveAnalysisError`). -/
inductive DeclineCurveAnalysisError where
  | declineRateTooHigh
  | declineRateWrongSign
  | cannotSolveDecline
  | exponentTooLarge
  | durationTooLong
  | invalidInput (reason : String)
deriving DecidableEq, Repr

abbrev Err := DeclineCurveAnalysisError

/-- Absolute tolerance for floating-point comparisons (`EPSILON = 1e-12`). -/
def EPSILON : ℚ := 1 / 10 ^ 12

/-- Maximum allowed duration in years (`MAX_DURATION_YEARS`). -/
def MAX_DURATION_YEARS : ℚ := 1000

/-- `AverageYearsTime::LENGTH = 365.25` (days per average year). -/
def AVERAGE_YEARS_LENGTH : ℚ := 1461 / 4

/-- `AverageDaysTime::LENGTH = 1.` -/
def AVERAGE_DAYS_LENGTH : ℚ := 1

/-- `is_effectively_zero`: `value.abs() <= EPSILON`. -/
def is_effectively_zero (value : ℚ) : Bool := |value| ≤ EPSILON

/-- `approx_eq`: `(a - b).abs() <= EPSILON`. -/
def approx_eq (a b : ℚ) : Bool := |a - b| ≤ EPSILON

/-- `approx_gte`: `a >= b - EPSILON`. -/
def approx_gte (a b : ℚ) : Bool := b - EPSILON ≤ a

/-- `f64::is_sign_negative` restricted to `ℚ`.  On nonzero finite doubles the
sign bit is set exactly when the value is negative; `ℚ` has no negative zero
(that case lives in `FloatModel`). -/
def is_sign_negative (value : ℚ) : Bool := value < 0

/-- `f64::is_sign_positive` restricted to `ℚ`; every use site in the source
runs after a non-zero validation, where it coincides with `0 < value`
(we keep `0 ≤ value` so that `is_sign_positive` is the negation of
`is_sign_negative`, as for doubles). -/
def is_sign_positive (value : ℚ) : Bool := 0 ≤ value

/-- `validate_finite`: every `ℚ` scalar models a finite double, so this
always succeeds in this model (NaN/infinity are handled in `FloatModel`). -/
def validate_finite (_value : ℚ) (_name : String) : Except Err Unit := .ok ()

/-- `validate_positive`: finite and not sign-negative. -/
def validate_positive (value : ℚ) (name : String) : Except Err Unit := do
  validate_finite value name
  if is_sign_negative value then
    .error (.invalidInput (name ++ " is negative, but expected a positive number"))
  else
    .ok ()

/-- `validate_non_zero_positive_rate`: finite, not sign-negative, and not
effectively zero. -/
def validate_non_zero_positive_rate (value : ℚ) (name : String) : Except Err Unit := do
  validate_finite value name
  if is_sign_negative value || is_effectively_zero value then
    .error (.invalidInput (name ++ " is negative or zero, but expected a positive number"))
  else
    .ok ()

/-- `validate_non_zero_decline_rate`: finite and not effectively zero. -/
def validate_non_zero_decline_rate (value : ℚ) (name : String) : Except Err Unit := do
  validate_finite value name
  if is_effectively_zero value then
    .error (.invalidInput (name ++ " is approximately zero, but expected it to be non-zero"))
  else
    .ok ()

/-- `DeclineTimeUnit::to_unit`: `value * Self::LENGTH / Other::LENGTH`. -/
def to_unit_value (value fromLength toLength : ℚ) : ℚ :=
  value * fromLength / toLength

/-- `validate_duration`, generic over the time unit's `LENGTH` (`len`). -/
def validate_duration (len : ℚ) (duration : ℚ) : Except Err Unit := do
  validate_positive duration "duration"
  if to_unit_value duration len AVERAGE_YEARS_LENGTH > MAX_DURATION_YEARS then
    .error .durationTooLong
  else
    .ok ()

/-- `validate_incremental_volume`: finite and not sign-negative. -/
def validate_incremental_volume (volume : ℚ) : Except Err Unit := do
  validate_finite volume "incremental volume"
  if is_sign_negative volume then
    .error (.invalidInput "incremental volume is negative, but expected a positive number")
  else
    .ok ()

/-- `DeclineRateSignValidation`. -/
inductive DeclineRateSignValidation where
  | Continue
  | ZeroDuration
deriving DecidableEq, Repr

/-- `validate_decline_rate_sign`. -/
def validate_decline_rate_sign (decline_rate initial_rate final_rate : ℚ) :
    Except Err DeclineRateSignValidation :=
  if initial_rate < final_rate then
    if decline_rate > 0 then .error .declineRateWrongSign
    else .ok .Continue
  else if initial_rate > final_rate then
    if decline_rate < 0 then .error .declineRateWrongSign
    else .ok .Continue
  else
    .ok .ZeroDuration

/-- The floating-point transcendental primitives used by the library, as an
abstract record.  The propositional fields are exact identities guaranteed by
IEEE-754 for the corresponding `f64` functions: `expm1(0) = 0`, `ln1p(0) = 0`
and `pow(1, y) = 1` hold bitwise for doubles. -/
structure Ops where
  exp : ℚ → ℚ
  exp_m1 : ℚ → ℚ
  ln : ℚ → ℚ
  ln_1p : ℚ → ℚ
  powf : ℚ → ℚ → ℚ
  sqrt : ℚ → ℚ
  exp_m1_zero : exp_m1 0 = 0
  ln_1p_zero : ln_1p 0 = 0
  powf_one : ∀ y, powf 1 y = 1

/-- A concrete inhabitant of `Ops`, used to instantiate universally
quantified theorems at concrete inputs. -/
def Ops.base : Ops where
  exp := fun _ => 1
  exp_m1 := fun x => x
  ln := fun _ => 0
  ln_1p := fun x => x
  powf := fun b _ => b
  sqrt := fun x => x
  exp_m1_zero := rfl
  ln_1p_zero := rfl
  powf_one := fun _ => rfl

/-- `f64::mul_add(a, b, c) = a * b + c` (fused multiply-add; exact here). -/
def mul_add (a b c : ℚ) : ℚ := a * b + c

/-! ## Exponential segment (`exponential.rs`) -/

/-- `ExponentialParameters`: an exponential decline segment. -/
structure ExponentialParameters where
  initial_rate : ℚ
  decline_rate : ℚ
  incremental_duration : ℚ
deriving DecidableEq, Repr

namespace ExponentialParameters

/-- `ExponentialParameters::from_incremental_duration` (unit length `len`). -/
def from_incremental_duration (len : ℚ) (initial_rate decline_rate incremental_duration : ℚ) :
    Except Err ExponentialParameters := do
  validate_non_zero_positive_rate initial_rate "initial rate"
  validate_non_zero_decline_rate decline_rate "decline rate"
  validate_duration len incremental_duration
  .ok ⟨initial_rate, decline_rate, incremental_duration⟩

/-- `ExponentialParameters::from_incremental_volume`. -/
def from_incremental_volume (ops : Ops) (len : ℚ)
    (initial_rate decline_rate incremental_volume : ℚ) :
    Except Err ExponentialParameters := do
  validate_non_zero_positive_rate initial_rate "initial rate"
  validate_non_zero_decline_rate decline_rate "decline rate"
  validate_incremental_volume incremental_volume
  -- The source's early return `if decline_rate > 0 { if approx_gte(v, max) {
  -- return Err(CannotSolveDecline) } }` is folded into a single guard.
  if decline_rate > 0 ∧ approx_gte incremental_volume (initial_rate / decline_rate) then
    .error .cannotSolveDecline
  else do
    let incremental_duration :=
      -(ops.ln_1p ((-incremental_volume * decline_rate) / initial_rate)) / decline_rate
    validate_duration len incremental_duration
    .ok ⟨initial_rate, decline_rate, incremental_duration⟩

/-- `ExponentialParameters::from_final_rate`. -/
def from_final_rate (ops : Ops) (len : ℚ) (initial_rate decline_rate final_rate : ℚ) :
    Except Err ExponentialParameters := do
  validate_non_zero_positive_rate initial_rate "initial rate"
  validate_non_zero_decline_rate decline_rate "decline rate"
  validate_non_zero_positive_rate final_rate "final rate"
  match ← validate_decline_rate_sign decline_rate initial_rate final_rate with
  | .ZeroDuration => .ok ⟨initial_rate, decline_rate, 0⟩
  | .Continue => do
    let incremental_duration := ops.ln (initial_rate / final_rate) / decline_rate
    validate_duration len incremental_duration
    .ok ⟨initial_rate, decline_rate, incremental_duration⟩

/-- `incremental_volume_at_time_without_clamping`. -/
def incremental_volume_at_time_without_clamping (ops : Ops) (p : ExponentialParameters)
    (time : ℚ) : ℚ :=
  let exp_part := -(ops.exp_m1 (-p.decline_rate * time))
  (exp_part * p.initial_rate) / p.decline_rate

/-- `incremental_volume`. -/
def incremental_volume (ops : Ops) (p : ExponentialParameters) : ℚ :=
  p.incremental_volume_at_time_without_clamping ops p.incremental_duration

/-- `incremental_volume_at_time`. -/
def incremental_volume_at_time (ops : Ops) (p : ExponentialParameters) (time : ℚ) : ℚ :=
  if time > p.incremental_duration then
    p.incremental_volume ops
  else
    p.incremental_volume_at_time_without_clamping ops time

/-- `rate_at_time_without_clamping`. -/
def rate_at_time_without_clamping (ops : Ops) (p : ExponentialParameters) (time : ℚ) : ℚ :=
  p.initial_rate * ops.exp (-p.decline_rate * time)

/-- `final_rate`. -/
def final_rate (ops : Ops) (p : ExponentialParameters) : ℚ :=
  p.rate_at_time_without_clamping ops p.incremental_duration

/-- `rate_at_time`. -/
def rate_at_time (ops : Ops) (p : ExponentialParameters) (time : ℚ) : ℚ :=
  if time > p.incremental_duration then
    p.final_rate ops
  else
    p.rate_at_time_without_clamping ops time

end ExponentialParameters

/-! ## Harmonic segment (`harmonic.rs`) -/

/-- `validate_harmonic_singularity`: for harmonic inclines (negative decline
rate), the duration must not reach or exceed the singularity at
`t_max = -1 / d`. -/
def validate_harmonic_singularity (decline_rate duration : ℚ) : Except Err Unit :=
  if decline_rate < 0 then
    let t_max := -1 / decline_rate
    if duration ≥ t_max then .error .durationTooLong
    else .ok ()
  else
    .ok ()

/-- `HarmonicParameters`: a harmonic decline segment. -/
structure HarmonicParameters where
  initial_rate : ℚ
  initial_decline_rate : ℚ
  incremental_duration : ℚ
deriving DecidableEq, Repr

namespace HarmonicParameters

/-- `HarmonicParameters::from_incremental_duration`. -/
def from_incremental_duration (len : ℚ)
    (initial_rate initial_decline_rate incremental_duration : ℚ) :
    Except Err HarmonicParameters := do
  validate_non_zero_positive_rate initial_rate "initial rate"
  validate_non_zero_decline_rate initial_decline_rate "initial decline rate"
  validate_duration len incremental_duration
  validate_harmonic_singularity initial_decline_rate incremental_duration
  .ok ⟨initial_rate, initial_decline_rate, incremental_duration⟩

/-- `HarmonicParameters::from_incremental_volume`. -/
def from_incremental_volume (ops : Ops) (len : ℚ)
    (initial_rate initial_decline_rate incremental_volume : ℚ) :
    Except Err HarmonicParameters := do
  validate_non_zero_positive_rate initial_rate "initial rate"
  validate_non_zero_decline_rate initial_decline_rate "initial decline rate"
  validate_incremental_volume incremental_volume
  let incremental_duration :=
    (ops.exp_m1 ((incremental_volume * initial_decline_rate) / initial_rate))
      / initial_decline_rate
  validate_duration len incremental_duration
  validate_harmonic_singularity initial_decline_rate incremental_duration
  .ok ⟨initial_rate, initial_decline_rate, incremental_duration⟩

/-- `HarmonicParameters::from_final_decline_rate`. -/
def from_final_decline_rate (len : ℚ)
    (initial_rate initial_decline_rate final_decline_rate : ℚ) :
    Except Err HarmonicParameters := do
  validate_non_zero_positive_rate initial_rate "initial rate"
  validate_non_zero_decline_rate initial_decline_rate "initial decline rate"
  validate_non_zero_decline_rate final_decline_rate "final decline rate"
  if is_sign_positive initial_decline_rate ≠ is_sign_positive final_decline_rate then
    .error .cannotSolveDecline
  else do
    let incremental_duration := 1 / final_decline_rate - 1 / initial_decline_rate
    validate_duration len incremental_duration
    validate_harmonic_singularity initial_decline_rate incremental_duration
    .ok ⟨initial_rate, initial_decline_rate, incremental_duration⟩

/-- `HarmonicParameters::from_final_rate`. -/
def from_final_rate (len : ℚ) (initial_rate initial_decline_rate final_rate : ℚ) :
    Except Err HarmonicParameters := do
  validate_non_zero_positive_rate initial_rate "initial rate"
  validate_non_zero_decline_rate initial_decline_rate "initial decline rate"
  validate_non_zero_positive_rate final_rate "final rate"
  match ← validate_decline_rate_sign initial_decline_rate initial_rate final_rate with
  | .ZeroDuration => .ok ⟨initial_rate, initial_decline_rate, 0⟩
  | .Continue => do
    let incremental_duration :=
      (initial_rate - final_rate) / (initial_decline_rate * final_rate)
    validate_duration len incremental_duration
    validate_harmonic_singularity initial_decline_rate incremental_duration
    .ok ⟨initial_rate, initial_decline_rate, incremental_duration⟩

/-- `incremental_volume_at_time_without_clamping`. -/
def incremental_volume_at_time_without_clamping (ops : Ops) (p : HarmonicParameters)
    (time : ℚ) : ℚ :=
  (p.initial_rate * ops.ln_1p (time * p.initial_decline_rate)) / p.initial_decline_rate

/-- `incremental_volume`. -/
def incremental_volume (ops : Ops) (p : HarmonicParameters) : ℚ :=
  p.incremental_volume_at_time_without_clamping ops p.incremental_duration

/-- `incremental_volume_at_time`. -/
def incremental_volume_at_time (ops : Ops) (p : HarmonicParameters) (time : ℚ) : ℚ :=
  if time > p.incremental_duration then
    p.incremental_volume ops
  else
    p.incremental_volume_at_time_without_clamping ops time

/-- `rate_at_time_without_clamping`. -/
def rate_at_time_without_clamping (p : HarmonicParameters) (time : ℚ) : ℚ :=
  p.initial_rate / mul_add time p.initial_decline_rate 1

/-- `final_rate`. -/
def final_rate (p : HarmonicParameters) : ℚ :=
  p.rate_at_time_without_clamping p.incremental_duration

/-- `rate_at_time`. -/
def rate_at_time (p : HarmonicParameters) (time : ℚ) : ℚ :=
  if time > p.incremental_duration then
    p.final_rate
  else
    p.rate_at_time_without_clamping time

end HarmonicParameters

/-! ## Hyperbolic segment (`hyperbolic.rs`) -/

/-- `MAX_EXPONENT = 100.` -/
def MAX_EXPONENT : ℚ := 100

/-- `validate_hyperbolic_exponent`.  The source's sequential early returns
are written as an if/else chain. -/
def validate_hyperbolic_exponent (exponent initial_decline_rate : ℚ) : Except Err Unit := do
  validate_finite exponent "exponent"
  if is_effectively_zero exponent then
    .error (.invalidInput "exponent was approximately zero, so an exponential should be used instead")
  else if is_effectively_zero (exponent - 1) then
    .error (.invalidInput "exponent was approximately one, so a harmonic should be used instead")
  else if |exponent| > MAX_EXPONENT then
    .error .exponentTooLarge
  else if is_sign_positive exponent ≠ is_sign_positive initial_decline_rate then
    .error .declineRateWrongSign
  else
    .ok ()

/-- `HyperbolicParameters`: a hyperbolic decline segment. -/
structure HyperbolicParameters where
  initial_rate : ℚ
  initial_decline_rate : ℚ
  incremental_duration : ℚ
  exponent : ℚ
deriving DecidableEq, Repr

namespace HyperbolicParameters

/-- `HyperbolicParameters::from_incremental_duration`. -/
def from_incremental_duration (len : ℚ)
    (initial_rate initial_decline_rate incremental_duration exponent : ℚ) :
    Except Err HyperbolicParameters := do
  validate_non_zero_positive_rate initial_rate "initial rate"
  validate_non_zero_decline_rate initial_decline_rate "initial decline rate"
  validate_duration len incremental_duration
  validate_hyperbolic_exponent exponent initial_decline_rate
  .ok ⟨initial_rate, initial_decline_rate, incremental_duration, exponent⟩

/-- `HyperbolicParameters::from_incremental_volume`. -/
def from_incremental_volume (ops : Ops) (len : ℚ)
    (initial_rate initial_decline_rate incremental_volume exponent : ℚ) :
    Except Err HyperbolicParameters := do
  validate_non_zero_positive_rate initial_rate "initial rate"
  validate_non_zero_decline_rate initial_decline_rate "initial decline rate"
  validate_incremental_volume incremental_volume
  validate_hyperbolic_exponent exponent initial_decline_rate
  let one_minus_exponent := 1 - exponent
  -- The source's early return for volumes at/above the asymptotic maximum
  -- (`decline rate > 0 && 0 < exponent < 1`) is folded into a single guard.
  if initial_decline_rate > 0 ∧ exponent > 0 ∧ exponent < 1 ∧
      approx_gte incremental_volume
        (initial_rate / (one_minus_exponent * initial_decline_rate)) then
    .error .cannotSolveDecline
  else do
    let base := 1 - (incremental_volume * initial_decline_rate * one_minus_exponent) / initial_rate
    let duration_denom := exponent * initial_decline_rate
    let incremental_duration :=
      (ops.powf base (-exponent / one_minus_exponent) - 1) / duration_denom
    validate_duration len incremental_duration
    .ok ⟨initial_rate, initial_decline_rate, incremental_duration, exponent⟩

/-- `HyperbolicParameters::from_final_decline_rate`. -/
def from_final_decline_rate (len : ℚ)
    (initial_rate initial_decline_rate final_decline_rate exponent : ℚ) :
    Except Err HyperbolicParameters := do
  validate_non_zero_positive_rate initial_rate "initial rate"
  validate_non_zero_decline_rate initial_decline_rate "initial decline rate"
  validate_non_zero_decline_rate final_decline_rate "final decline rate"
  validate_hyperbolic_exponent exponent initial_decline_rate
  if is_sign_positive initial_decline_rate ≠ is_sign_positive final_decline_rate then
    .error .cannotSolveDecline
  -- The source's `if exponent > 0 { if final > initial { return Err } } else
  -- if final < initial { return Err }` is folded into a single guard.
  else if (exponent > 0 ∧ final_decline_rate > initial_decline_rate) ∨
      (¬ exponent > 0 ∧ final_decline_rate < initial_decline_rate) then
    .error .cannotSolveDecline
  else do
    let incremental_duration :=
      (initial_decline_rate / final_decline_rate - 1) / (exponent * initial_decline_rate)
    validate_duration len incremental_duration
    .ok ⟨initial_rate, initial_decline_rate, incremental_duration, exponent⟩

/-- `HyperbolicParameters::from_final_rate`. -/
def from_final_rate (ops : Ops) (len : ℚ)
    (initial_rate initial_decline_rate final_rate exponent : ℚ) :
    Except Err HyperbolicParameters := do
  validate_non_zero_positive_rate initial_rate "initial rate"
  validate_non_zero_decline_rate initial_decline_rate "initial decline rate"
  validate_non_zero_positive_rate final_rate "final rate"
  validate_hyperbolic_exponent exponent initial_decline_rate
  match ← validate_decline_rate_sign initial_decline_rate initial_rate final_rate with
  | .ZeroDuration => .ok ⟨initial_rate, initial_decline_rate, 0, exponent⟩
  | .Continue => do
    let incremental_duration :=
      (ops.powf (initial_rate / final_rate) exponent - 1)
        / (exponent * initial_decline_rate)
    validate_duration len incremental_duration
    .ok ⟨initial_rate, initial_decline_rate, incremental_duration, exponent⟩

/-- `incremental_volume_at_time_without_clamping`. -/
def incremental_volume_at_time_without_clamping (ops : Ops) (p : HyperbolicParameters)
    (time : ℚ) : ℚ :=
  let factor_denom := mul_add p.initial_decline_rate (-p.exponent) p.initial_decline_rate
  let factor := p.initial_rate / factor_denom
  let power := 1 - 1 / p.exponent
  let exponent_times_initial_decline_rate := p.exponent * p.initial_decline_rate
  let base := mul_add time exponent_times_initial_decline_rate 1
  mul_add (ops.powf base power) (-factor) factor

/-- `incremental_volume`. -/
def incremental_volume (ops : Ops) (p : HyperbolicParameters) : ℚ :=
  p.incremental_volume_at_time_without_clamping ops p.incremental_duration

/-- `incremental_volume_at_time`. -/
def incremental_volume_at_time (ops : Ops) (p : HyperbolicParameters) (time : ℚ) : ℚ :=
  if time > p.incremental_duration then
    p.incremental_volume ops
  else
    p.incremental_volume_at_time_without_clamping ops time

/-- `rate_at_time_without_clamping`. -/
def rate_at_time_without_clamping (ops : Ops) (p : HyperbolicParameters) (time : ℚ) : ℚ :=
  p.initial_rate
    / ops.powf (mul_add time (p.exponent * p.initial_decline_rate) 1) (1 / p.exponent)

/-- `final_rate`. -/
def final_rate (ops : Ops) (p : HyperbolicParameters) : ℚ :=
  p.rate_at_time_without_clamping ops p.incremental_duration

/-- `rate_at_time`. -/
def rate_at_time (ops : Ops) (p : HyperbolicParameters) (time : ℚ) : ℚ :=
  if time > p.incremental_duration then
    p.final_rate ops
  else
    p.rate_at_time_without_clamping ops time

end HyperbolicParameters

/-! ## Linear segment (`linear.rs`) -/

/-- `LinearParameters`: a linear decline segment. -/
structure LinearParameters where
  initial_rate : ℚ
  decline_rate : ℚ
  incremental_duration : ℚ
deriving DecidableEq, Repr

namespace LinearParameters

/-- `rate_at_time_without_clamping`. -/
def rate_at_time_without_clamping (p : LinearParameters) (time : ℚ) : ℚ :=
  mul_add p.initial_rate (-p.decline_rate * time) p.initial_rate

/-- `LinearParameters::from_incremental_duration`.  Also validates that the
resulting final rate is a valid non-zero positive rate. -/
def from_incremental_duration (len : ℚ) (initial_rate decline_rate incremental_duration : ℚ) :
    Except Err LinearParameters := do
  validate_non_zero_positive_rate initial_rate "initial rate"
  validate_non_zero_decline_rate decline_rate "decline rate"
  validate_duration len incremental_duration
  let result : LinearParameters := ⟨initial_rate, decline_rate, incremental_duration⟩
  let final_rate := result.rate_at_time_without_clamping incremental_duration
  validate_non_zero_positive_rate final_rate "final rate"
  .ok result

/-- `LinearParameters::from_incremental_volume`. -/
def from_incremental_volume (ops : Ops) (len : ℚ)
    (initial_rate decline_rate incremental_volume : ℚ) :
    Except Err LinearParameters := do
  validate_non_zero_positive_rate initial_rate "initial rate"
  validate_non_zero_decline_rate decline_rate "decline rate"
  validate_incremental_volume incremental_volume
  if is_effectively_zero incremental_volume then
    .ok ⟨initial_rate, decline_rate, 0⟩
  else do
    let a := -(1 / 2) * decline_rate * initial_rate
    let b := initial_rate
    let c := -incremental_volume
    let discriminant := b * b - 4 * a * c
    if discriminant < 0 then
      .error .cannotSolveDecline
    else do
      let incremental_duration := (-b + ops.sqrt discriminant) / (2 * a)
      validate_duration len incremental_duration
      .ok ⟨initial_rate, decline_rate, incremental_duration⟩

/-- `LinearParameters::from_final_rate`. -/
def from_final_rate (len : ℚ) (initial_rate decline_rate final_rate : ℚ) :
    Except Err LinearParameters := do
  validate_non_zero_positive_rate initial_rate "initial rate"
  validate_non_zero_decline_rate decline_rate "decline rate"
  validate_non_zero_positive_rate final_rate "final rate"
  if is_effectively_zero decline_rate then
    if approx_eq initial_rate final_rate then
      .ok ⟨initial_rate, decline_rate, 0⟩
    else
      throw .cannotSolveDecline
  else do
    let incremental_duration :=
      (initial_rate - final_rate) / (initial_rate * decline_rate)
    validate_duration len incremental_duration
    .ok ⟨initial_rate, decline_rate, incremental_duration⟩

/-- `incremental_volume_at_time_without_clamping`. -/
def incremental_volume_at_time_without_clamping (p : LinearParameters) (time : ℚ) : ℚ :=
  p.initial_rate * time - (1 / 2) * p.decline_rate * p.initial_rate * time ^ 2

/-- `incremental_volume`. -/
def incremental_volume (p : LinearParameters) : ℚ :=
  p.incremental_volume_at_time_without_clamping p.incremental_duration

/-- `incremental_volume_at_time`. -/
def incremental_volume_at_time (p : LinearParameters) (time : ℚ) : ℚ :=
  if time > p.incremental_duration then
    p.incremental_volume
  else
    p.incremental_volume_at_time_without_clamping time

/-- `final_rate`. -/
def final_rate (p : LinearParameters) : ℚ :=
  p.rate_at_time_without_clamping p.incremental_duration

/-- `rate_at_time`. -/
def rate_at_time (p : LinearParameters) (time : ℚ) : ℚ :=
  if time > p.incremental_duration then
    p.final_rate
  else
    p.rate_at_time_without_clamping time

end LinearParameters

/-! ## Flat segment (`flat.rs`) -/

/-- `FlatParameters`: a flat segment with constant production rate. -/
structure FlatParameters where
  rate : ℚ
  incremental_duration : ℚ
deriving DecidableEq, Repr

namespace FlatParameters

/-- `FlatParameters::from_incremental_duration`. -/
def from_incremental_duration (len : ℚ) (rate incremental_duration : ℚ) :
    Except Err FlatParameters := do
  validate_positive rate "rate"
  validate_duration len incremental_duration
  .ok ⟨rate, incremental_duration⟩

/-- `FlatParameters::from_incremental_volume`. -/
def from_incremental_volume (len : ℚ) (rate incremental_volume : ℚ) :
    Except Err FlatParameters := do
  validate_positive rate "rate"
  validate_incremental_volume incremental_volume
  if is_effectively_zero incremental_volume then
    .ok ⟨rate, 0⟩
  else if is_effectively_zero rate then
    throw .cannotSolveDecline
  else do
    let incremental_duration := incremental_volume / rate
    validate_duration len incremental_duration
    .ok ⟨rate, incremental_duration⟩

/-- `incremental_volume_at_time_without_clamping`. -/
def incremental_volume_at_time_without_clamping (p : FlatParameters) (time : ℚ) : ℚ :=
  p.rate * time

/-- `incremental_volume`. -/
def incremental_volume (p : FlatParameters) : ℚ :=
  p.incremental_volume_at_time_without_clamping p.incremental_duration

/-- `incremental_volume_at_time`. -/
def incremental_volume_at_time (p : FlatParameters) (time : ℚ) : ℚ :=
  if time > p.incremental_duration then
    p.incremental_volume
  else
    p.incremental_volume_at_time_without_clamping time

/-- `final_rate`. -/
def final_rate (p : FlatParameters) : ℚ := p.rate

/-- `rate_at_time` (the rate is constant; time is ignored). -/
def rate_at_time (p : FlatParameters) (_time : ℚ) : ℚ := p.rate

end FlatParameters

/-! ## Delay segment (`delay.rs`) -/

/-- `DelayParameters`: a no-op delay segment with zero rate and volume. -/
structure DelayParameters where
  incremental_duration : ℚ
deriving DecidableEq, Repr

namespace DelayParameters

/-- `DelayParameters::ZERO_PRODUCTION_RATE`. -/
def ZERO_PRODUCTION_RATE : ℚ := 0

/-- `rate`. -/
def rate (_p : DelayParameters) : ℚ := ZERO_PRODUCTION_RATE

/-- `DelayParameters::from_incremental_duration`. -/
def from_incremental_duration (len : ℚ) (incremental_duration : ℚ) :
    Except Err DelayParameters := do
  validate_duration len incremental_duration
  .ok ⟨incremental_duration⟩

/-- `incremental_volume_at_time`. -/
def incremental_volume_at_time (_p : DelayParameters) (_time : ℚ) : ℚ := 0

/-- `incremental_volume`. -/
def incremental_volume (_p : DelayParameters) : ℚ := 0

/-- `final_rate`. -/
def final_rate (_p : DelayParameters) : ℚ := ZERO_PRODUCTION_RATE

/-- `rate_at_time`. -/
def rate_at_time (_p : DelayParameters) (_time : ℚ) : ℚ := ZERO_PRODUCTION_RATE

end DelayParameters

/-! ## Decline-rate conversions (`decline_rate.rs`)

The three decline-rate wrappers are phantom-typed scalars in the source; here
each conversion takes the wrapped value directly. -/

namespace NominalDeclineRate

/-- `NominalDeclineRate::to_tangent_effective`: `1 - exp(-value)`. -/
def to_tangent_effective (ops : Ops) (value : ℚ) : Except Err ℚ :=
  .ok (1 - ops.exp (-value))

/-- `NominalDeclineRate::to_secant_effective`. -/
def to_secant_effective (ops : Ops) (value exponent : ℚ) : Except Err ℚ :=
  if exponent = 0 then do
    let tangent_effective ← to_tangent_effective ops value
    .ok tangent_effective
  else
    .ok (1 - ops.powf (mul_add value exponent 1) (-1 / exponent))

/-- `NominalDeclineRate::to_time`: `value * ToTimeUnit::LENGTH / Time::LENGTH`. -/
def to_time (value fromLength toLength : ℚ) : ℚ :=
  value * toLength / fromLength

end NominalDeclineRate

namespace TangentEffectiveDeclineRate

/-- `TangentEffectiveDeclineRate::to_nominal_inner`. -/
def to_nominal_inner (ops : Ops) (value : ℚ) : Except Err ℚ :=
  if value ≥ 1 then
    .error .declineRateTooHigh
  else
    .ok (-(ops.ln_1p (-value)))

/-- `TangentEffectiveDeclineRate::to_nominal`. -/
def to_nominal (ops : Ops) (value : ℚ) : Except Err ℚ :=
  to_nominal_inner ops value

/-- `TangentEffectiveDeclineRate::to_secant_effective`. -/
def to_secant_effective (ops : Ops) (value exponent : ℚ) : Except Err ℚ :=
  if exponent = 0 then
    .ok value
  else do
    let nominal ← to_nominal_inner ops value
    NominalDeclineRate.to_secant_effective ops nominal exponent

end TangentEffectiveDeclineRate

namespace SecantEffectiveDeclineRate

/-- `SecantEffectiveDeclineRate::to_nominal_inner`. -/
def to_nominal_inner (ops : Ops) (value exponent : ℚ) : Except Err ℚ :=
  if value ≥ 1 then
    .error .declineRateTooHigh
  else
    .ok ((ops.powf (1 - value) (-exponent) - 1) / exponent)

/-- `SecantEffectiveDeclineRate::to_nominal`. -/
def to_nominal (ops : Ops) (value exponent : ℚ) : Except Err ℚ :=
  if exponent = 0 then
    TangentEffectiveDeclineRate.to_nominal ops value
  else
    to_nominal_inner ops value exponent

/-- `SecantEffectiveDeclineRate::to_tangent_effective`. -/
def to_tangent_effective (ops : Ops) (value exponent : ℚ) : Except Err ℚ :=
  if exponent = 0 then
    .ok value
  else do
    let nominal ← to_nominal_inner ops value exponent
    NominalDeclineRate.to_tangent_effective ops nominal

end SecantEffectiveDeclineRate

/-! ## Float-level model of the validation layer (`lib.rs`)

`ℚ` cannot represent NaN, the infinities or negative zero, so the validation
predicates of `lib.rs` are additionally modelled over a faithful
representation of IEEE-754 double values: a sign bit together with an exact
non-negative magnitude, or an infinity, or NaN.  This is the model in which
the sign-of-negative-zero behaviour of `validate_positive` is settled. -/

namespace FloatModel

/-- An IEEE-754 double: NaN, a signed infinity, or a signed finite value given
by its sign bit and exact magnitude (`mag ≥ 0`; `finite true 0` is `-0.0`). -/
inductive Fl where
  | nan
  | inf (neg : Bool)
  | finite (neg : Bool) (mag : ℚ)
deriving DecidableEq, Repr

/-- `-0.0`. -/
def negZero : Fl := .finite true 0

/-- `f64::is_nan`. -/
def Fl.is_nan : Fl → Bool
  | .nan => true
  | _ => false

/-- `f64::is_finite`. -/
def Fl.is_finite : Fl → Bool
  | .finite _ _ => true
  | _ => false

/-- `f64::is_sign_negative`: the sign bit (`f64::NAN` has a clear sign bit). -/
def Fl.is_sign_negative : Fl → Bool
  | .nan => false
  | .inf neg => neg
  | .finite neg _ => neg

/-- The signed rational value of a finite `Fl` (used for comparisons). -/
def Fl.val : Fl → ℚ
  | .nan => 0
  | .inf _ => 0
  | .finite neg mag => if neg then -mag else mag

/-- `|x| <= EPSILON` on doubles (`is_effectively_zero`): false for NaN and
the infinities, a magnitude comparison for finite values. -/
def Fl.is_effectively_zero : Fl → Bool
  | .finite _ mag => mag ≤ EPSILON
  | _ => false

/-- `x > c` on doubles, for a finite positive threshold `c`: false for NaN,
true for `+∞`, false for `-∞`, a value comparison for finite values. -/
def Fl.gt (x : Fl) (c : ℚ) : Bool :=
  match x with
  | .nan => false
  | .inf neg => !neg
  | .finite _ _ => x.val > c

/-- Multiplication of a double by a positive finite rational constant,
idealized as exact: preserves NaN, the infinities, and the sign bit (the
unit lengths used with it are positive constants). -/
def Fl.mulPos (x : Fl) (k : ℚ) : Fl :=
  match x with
  | .nan => .nan
  | .inf neg => .inf neg
  | .finite neg mag => .finite neg (mag * k)

/-- `validate_finite` over doubles. -/
def validate_finite (value : Fl) (name : String) : Except Err Unit :=
  if value.is_finite then
    .ok ()
  else
    .error (.invalidInput (if value.is_nan then
      name ++ " is not-a-number, but expected a finite number"
    else
      name ++ " is infinity, but expected a finite number"))

/-- `validate_positive` over doubles. -/
def validate_positive (value : Fl) (name : String) : Except Err Unit := do
  validate_finite value name
  if value.is_sign_negative then
    .error (.invalidInput (name ++ " is negative, but expected a positive number"))
  else
    .ok ()

/-- `validate_non_zero_positive_rate` over doubles. -/
def validate_non_zero_positive_rate (value : Fl) (name : String) : Except Err Unit := do
  validate_finite value name
  if value.is_sign_negative || value.is_effectively_zero then
    .error (.invalidInput (name ++ " is negative or zero, but expected a positive number"))
  else
    .ok ()

/-- `validate_duration` over doubles (time-unit length `len`, a positive
constant; conversion to years is `value * len / 365.25`). -/
def validate_duration (len : ℚ) (duration : Fl) : Except Err Unit := do
  validate_positive duration "duration"
  if (duration.mulPos (len / AVERAGE_YEARS_LENGTH)).gt MAX_DURATION_YEARS then
    .error .durationTooLong
  else
    .ok ()

/-- `FlatParameters::from_incremental_duration` over doubles. -/
def flat_from_incremental_duration (len : ℚ) (rate incremental_duration : Fl) :
    Except Err (Fl × Fl) := do
  validate_positive rate "rate"
  validate_duration len incremental_duration
  .ok (rate, incremental_duration)

end FloatModel

/-! ## Helper lemmas -/

theorem error_bind {ε α β : Type} (e : ε) (f : α → Except ε β) :
    (Except.error e >>= f) = Except.error e := rfl

theorem ok_bind {ε α β : Type} (a : α) (f : α → Except ε β) :
    (Except.ok a >>= f) = f a := rfl

theorem throw_eq {ε α : Type} (e : ε) : (throw e : Except ε α) = Except.error e := rfl

theorem EPSILON_pos : 0 < EPSILON := by norm_num [EPSILON]

theorem validate_positive_ok (v : ℚ) (n : String) :
    validate_positive v n = .ok () ↔ 0 ≤ v := by
  simp only [validate_positive, validate_finite, is_sign_negative, ok_bind,
    decide_eq_true_eq]
  split
  · next h => exact iff_of_false (by simp) (by linarith)
  · next h => exact iff_of_true rfl (le_of_not_gt h)

theorem validate_non_zero_positive_rate_ok (v : ℚ) (n : String) :
    validate_non_zero_positive_rate v n = .ok () ↔ EPSILON < v := by
  simp only [validate_non_zero_positive_rate, validate_finite, is_sign_negative,
    is_effectively_zero, ok_bind, Bool.or_eq_true, decide_eq_true_eq]
  split
  · next h =>
    refine iff_of_false (by simp) ?_
    rcases h with h | h
    · have := EPSILON_pos; intro hc; linarith
    · have := (abs_le.mp h).2; intro hc; linarith
  · next h =>
    push_neg at h
    refine iff_of_true rfl ?_
    have h2 := h.2
    rwa [abs_of_nonneg h.1] at h2

theorem validate_non_zero_decline_rate_ok (v : ℚ) (n : String) :
    validate_non_zero_decline_rate v n = .ok () ↔ EPSILON < |v| := by
  simp only [validate_non_zero_decline_rate, validate_finite, is_effectively_zero,
    ok_bind, decide_eq_true_eq]
  split
  · next h => exact iff_of_false (by simp) (by linarith)
  · next h => exact iff_of_true rfl (lt_of_not_ge h)

theorem validate_incremental_volume_ok (v : ℚ) :
    validate_incremental_volume v = .ok () ↔ 0 ≤ v := by
  simp only [validate_incremental_volume, validate_finite, is_sign_negative,
    ok_bind, decide_eq_true_eq]
  split
  · next h => exact iff_of_false (by simp) (by linarith)
  · next h => exact iff_of_true rfl (le_of_not_gt h)

theorem validate_duration_ok (len d : ℚ) :
    validate_duration len d = .ok () ↔
      0 ≤ d ∧ d * len / AVERAGE_YEARS_LENGTH ≤ MAX_DURATION_YEARS := by
  unfold validate_duration to_unit_value
  cases h : validate_positive d "duration" with
  | error e =>
    rw [error_bind]
    refine iff_of_false (by simp) ?_
    intro hc
    rw [← validate_positive_ok d "duration"] at hc
    rw [h] at hc
    exact absurd hc.1 (by simp)
  | ok u =>
    cases u
    rw [ok_bind]
    have hd : 0 ≤ d := (validate_positive_ok d "duration").mp h
    split
    · next hgt => exact iff_of_false (by simp) (fun hc => absurd hgt (not_lt.mpr hc.2))
    · next hgt => exact iff_of_true rfl ⟨hd, le_of_not_gt hgt⟩

theorem validate_hyperbolic_exponent_ok (b D : ℚ) :
    validate_hyperbolic_exponent b D = .ok () ↔
      EPSILON < |b| ∧ EPSILON < |b - 1| ∧ |b| ≤ MAX_EXPONENT ∧ ((0:ℚ) ≤ b ↔ (0:ℚ) ≤ D) := by
  simp only [validate_hyperbolic_exponent, validate_finite, is_effectively_zero,
    is_sign_positive, ok_bind, decide_eq_true_eq]
  split
  · next h => exact iff_of_false (by simp) (fun hc => absurd h (not_le.mpr hc.1))
  · next h1 =>
    split
    · next h => exact iff_of_false (by simp) (fun hc => absurd h (not_le.mpr hc.2.1))
    · next h2 =>
      split
      · next h => exact iff_of_false (by simp) (fun hc => absurd h (not_lt.mpr hc.2.2.1))
      · next h3 =>
        split
        · next h =>
          refine iff_of_false (by simp) ?_
          intro hc
          apply h
          rcases Decidable.em ((0:ℚ) ≤ b) with hb | hb
          · simp [hb, hc.2.2.2.mp hb]
          · have hD : ¬ (0:ℚ) ≤ D := fun hD => hb (hc.2.2.2.mpr hD)
            simp [hb, hD]
        · next h4 =>
          refine iff_of_true rfl ⟨lt_of_not_ge h1, lt_of_not_ge h2, le_of_not_gt h3, ?_⟩
          constructor
          · intro hb
            by_contra hD
            exact h4 (by simp [hb, hD])
          · intro hD
            by_contra hb
            exact h4 (by simp [hb, hD])

theorem validate_duration_split (len d : ℚ) (hd : 0 ≤ d) :
    validate_duration len d = .ok () ∨
      validate_duration len d = .error .durationTooLong := by
  unfold validate_duration
  rw [(validate_positive_ok d "duration").mpr hd, ok_bind]
  split
  · exact Or.inr rfl
  · exact Or.inl rfl

theorem validate_harmonic_singularity_ok_lt (D d : ℚ) (hD : D < 0)
    (h : validate_harmonic_singularity D d = .ok ()) : d < -1 / D := by
  unfold validate_harmonic_singularity at h
  rw [if_pos hD] at h
  by_contra hc
  rw [if_pos (le_of_not_lt hc : d ≥ -1 / D)] at h
  exact absurd h (by simp)

theorem validate_harmonic_singularity_err (D d : ℚ) (hD : D < 0) (hd : -1 / D ≤ d) :
    validate_harmonic_singularity D d = .error .durationTooLong := by
  unfold validate_harmonic_singularity
  rw [if_pos hD, if_pos (hd : d ≥ -1 / D)]

theorem neg_one_div_pos_of_neg (D : ℚ) (hD : D < 0) : 0 < -1 / D :=
  div_pos_iff.mpr (Or.inr ⟨by norm_num, hD⟩)

theorem bind_ok_elim {ε α β : Type} {ma : Except ε α} {f : α → Except ε β} {b : β}
    (h : (ma >>= f) = .ok b) : ∃ a, ma = .ok a ∧ f a = .ok b := by
  cases ma with
  | error e => rw [error_bind] at h; exact absurd h (by simp)
  | ok a => exact ⟨a, rfl, by rwa [ok_bind] at h⟩

theorem is_effectively_zero_iff (v : ℚ) : is_effectively_zero v = true ↔ |v| ≤ EPSILON := by
  simp [is_effectively_zero]

theorem validate_decline_rate_sign_self (D q : ℚ) :
    validate_decline_rate_sign D q q = .ok .ZeroDuration := by
  unfold validate_decline_rate_sign
  rw [if_neg (lt_irrefl q), if_neg (lt_irrefl q)]

theorem validate_harmonic_singularity_zero (D : ℚ) :
    validate_harmonic_singularity D 0 = .ok () := by
  unfold validate_harmonic_singularity
  split
  · next hD => rw [if_neg (not_le.mpr (neg_one_div_pos_of_neg D hD))]
  · rfl

theorem validate_duration_zero (len : ℚ) : validate_duration len 0 = .ok () := by
  rw [validate_duration_ok]
  refine ⟨le_refl 0, ?_⟩
  rw [zero_mul, zero_div]
  norm_num [MAX_DURATION_YEARS]

theorem validate_non_zero_positive_rate_err (v : ℚ) (n : String)
    (h : v < 0 ∨ |v| ≤ EPSILON) :
    validate_non_zero_positive_rate v n =
      .error (.invalidInput (n ++ " is negative or zero, but expected a positive number")) := by
  unfold validate_non_zero_positive_rate validate_finite
  rw [ok_bind]
  have hc : (is_sign_negative v || is_effectively_zero v) = true := by
    simp only [is_sign_negative, is_effectively_zero, Bool.or_eq_true, decide_eq_true_eq]
    exact h
  rw [if_pos hc]

theorem sign_ne_of_opposite (D Df : ℚ) (h : (0 < D ∧ Df < 0) ∨ (D < 0 ∧ 0 < Df)) :
    is_sign_positive D ≠ is_sign_positive Df := by
  simp only [is_sign_positive, ne_eq, decide_eq_decide]
  intro hiff
  rcases h with ⟨hD, hDf⟩ | ⟨hD, hDf⟩
  · exact absurd (hiff.mp (le_of_lt hD)) (not_le.mpr hDf)
  · exact absurd (hiff.mpr (le_of_lt hDf)) (not_le.mpr hD)

theorem sign_eq_of_pos (D Df : ℚ) (hD : 0 < D) (hDf : 0 < Df) :
    ¬ is_sign_positive D ≠ is_sign_positive Df := by
  simp [is_sign_positive, le_of_lt hD, le_of_lt hDf]

theorem validate_duration_neg_err (len d : ℚ) (hd : d < 0) :
    ∃ e, validate_duration len d = .error e := by
  refine ⟨.invalidInput ("duration" ++ " is negative, but expected a positive number"), ?_⟩
  unfold validate_duration validate_positive validate_finite
  rw [ok_bind]
  have hc : is_sign_negative d = true := by
    simp only [is_sign_negative, decide_eq_true_eq]
    exact hd
  rw [if_pos hc, error_bind]

theorem exponential_volume_zero (ops : Ops) (p : ExponentialParameters)
    (h : p.incremental_duration = 0) : p.incremental_volume ops = 0 := by
  unfold ExponentialParameters.incremental_volume
    ExponentialParameters.incremental_volume_at_time_without_clamping
  rw [h]
  simp [ops.exp_m1_zero]

theorem harmonic_volume_zero (ops : Ops) (p : HarmonicParameters)
    (h : p.incremental_duration = 0) : p.incremental_volume ops = 0 := by
  unfold HarmonicParameters.incremental_volume
    HarmonicParameters.incremental_volume_at_time_without_clamping
  rw [h]
  simp [ops.ln_1p_zero]

theorem linear_volume_zero (p : LinearParameters)
    (h : p.incremental_duration = 0) : p.incremental_volume = 0 := by
  unfold LinearParameters.incremental_volume
    LinearParameters.incremental_volume_at_time_without_clamping
  rw [h]
  simp

theorem hyperbolic_volume_zero (ops : Ops) (p : HyperbolicParameters)
    (h : p.incremental_duration = 0) : p.incremental_volume ops = 0 := by
  unfold HyperbolicParameters.incremental_volume
    HyperbolicParameters.incremental_volume_at_time_without_clamping
  rw [h]
  simp [DCA.mul_add, ops.powf_one]

end DCA

open DCA

/-! ## Claims -/

/-- C1: for every segment of every model (Flat, Delay, Linear, Exponential,
Harmonic, Hyperbolic) and every time `t` strictly greater than the segment's
`incremental_duration`, `rate_at_time t` returns exactly `final_rate` and
`incremental_volume_at_time t` returns exactly `incremental_volume` (the
clamped branch invokes the very same computation, so the results are
identical, not merely approximately equal). -/
theorem C1_monotonic_clamping (ops : Ops) :
    (∀ (p : FlatParameters) (t : ℚ), t > p.incremental_duration →
      p.rate_at_time t = p.final_rate ∧
      p.incremental_volume_at_time t = p.incremental_volume) ∧
    (∀ (p : DelayParameters) (t : ℚ), t > p.incremental_duration →
      p.rate_at_time t = p.final_rate ∧
      p.incremental_volume_at_time t = p.incremental_volume) ∧
    (∀ (p : LinearParameters) (t : ℚ), t > p.incremental_duration →
      p.rate_at_time t = p.final_rate ∧
      p.incremental_volume_at_time t = p.incremental_volume) ∧
    (∀ (p : ExponentialParameters) (t : ℚ), t > p.incremental_duration →
      p.rate_at_time ops t = p.final_rate ops ∧
      p.incremental_volume_at_time ops t = p.incremental_volume ops) ∧
    (∀ (p : HarmonicParameters) (t : ℚ), t > p.incremental_duration →
      p.rate_at_time t = p.final_rate ∧
      p.incremental_volume_at_time ops t = p.incremental_volume ops) ∧
    (∀ (p : HyperbolicParameters) (t : ℚ), t > p.incremental_duration →
      p.rate_at_time ops t = p.final_rate ops ∧
      p.incremental_volume_at_time ops t = p.incremental_volume ops) := by
  refine ⟨?_, ?_, ?_, ?_, ?_, ?_⟩ <;> intro p t ht
  · exact ⟨rfl, by rw [FlatParameters.incremental_volume_at_time, if_pos ht]⟩
  · exact ⟨rfl, rfl⟩
  · exact ⟨by rw [LinearParameters.rate_at_time, if_pos ht],
      by rw [LinearParameters.incremental_volume_at_time, if_pos ht]⟩
  · exact ⟨by rw [ExponentialParameters.rate_at_time, if_pos ht],
      by rw [ExponentialParameters.incremental_volume_at_time, if_pos ht]⟩
  · exact ⟨by rw [HarmonicParameters.rate_at_time, if_pos ht],
      by rw [HarmonicParameters.incremental_volume_at_time, if_pos ht]⟩
  · exact ⟨by rw [HyperbolicParameters.rate_at_time, if_pos ht],
      by rw [HyperbolicParameters.incremental_volume_at_time, if_pos ht]⟩

/-- Witness for C1: the clamping equalities at concrete segments and the
concrete time `t = 2 > 1 = incremental_duration`. -/
theorem C1_monotonic_clamping_witness :
    ((2:ℚ) > (1:ℚ)) ∧
    (FlatParameters.rate_at_time ⟨5, 1⟩ 2 = FlatParameters.final_rate ⟨5, 1⟩ ∧
     FlatParameters.incremental_volume_at_time ⟨5, 1⟩ 2 =
       FlatParameters.incremental_volume ⟨5, 1⟩) ∧
    (DelayParameters.rate_at_time ⟨1⟩ 2 = DelayParameters.final_rate ⟨1⟩ ∧
     DelayParameters.incremental_volume_at_time ⟨1⟩ 2 =
       DelayParameters.incremental_volume ⟨1⟩) ∧
    (LinearParameters.rate_at_time ⟨5, 1/10, 1⟩ 2 = LinearParameters.final_rate ⟨5, 1/10, 1⟩ ∧
     LinearParameters.incremental_volume_at_time ⟨5, 1/10, 1⟩ 2 =
       LinearParameters.incremental_volume ⟨5, 1/10, 1⟩) ∧
    (ExponentialParameters.rate_at_time Ops.base ⟨5, 1/10, 1⟩ 2 =
       ExponentialParameters.final_rate Ops.base ⟨5, 1/10, 1⟩ ∧
     ExponentialParameters.incremental_volume_at_time Ops.base ⟨5, 1/10, 1⟩ 2 =
       ExponentialParameters.incremental_volume Ops.base ⟨5, 1/10, 1⟩) ∧
    (HarmonicParameters.rate_at_time ⟨5, 1/10, 1⟩ 2 =
       HarmonicParameters.final_rate ⟨5, 1/10, 1⟩ ∧
     HarmonicParameters.incremental_volume_at_time Ops.base ⟨5, 1/10, 1⟩ 2 =
       HarmonicParameters.incremental_volume Ops.base ⟨5, 1/10, 1⟩) ∧
    (HyperbolicParameters.rate_at_time Ops.base ⟨5, 1/10, 1, 1/2⟩ 2 =
       HyperbolicParameters.final_rate Ops.base ⟨5, 1/10, 1, 1/2⟩ ∧
     HyperbolicParameters.incremental_volume_at_time Ops.base ⟨5, 1/10, 1, 1/2⟩ 2 =
       HyperbolicParameters.incremental_volume Ops.base ⟨5, 1/10, 1, 1/2⟩) :=
  ⟨by decide,
   (C1_monotonic_clamping Ops.base).1 ⟨5, 1⟩ 2 (by decide),
   (C1_monotonic_clamping Ops.base).2.1 ⟨1⟩ 2 (by decide),
   (C1_monotonic_clamping Ops.base).2.2.1 ⟨5, 1/10, 1⟩ 2 (by decide),
   (C1_monotonic_clamping Ops.base).2.2.2.1 ⟨5, 1/10, 1⟩ 2 (by decide),
   (C1_monotonic_clamping Ops.base).2.2.2.2.1 ⟨5, 1/10, 1⟩ 2 (by decide),
   (C1_monotonic_clamping Ops.base).2.2.2.2.2 ⟨5, 1/10, 1, 1/2⟩ 2 (by decide)⟩

/-- C3 counterexample: `SecantEffectiveDeclineRate::to_tangent_effective`
with exponent exactly `0` and value `1 ≥ 1` returns `Ok(1)` (the `b = 0`
branch passes the value through with no `>= 1` check), not
`DeclineRateTooHigh` as the claim states. -/
theorem C3_counterexample :
    SecantEffectiveDeclineRate.to_tangent_effective Ops.base 1 0 = Except.ok 1 ∧
    SecantEffectiveDeclineRate.to_tangent_effective Ops.base 1 0 ≠
      Except.error DeclineCurveAnalysisError.declineRateTooHigh := by
  constructor
  · rfl
  · intro h
    rw [show SecantEffectiveDeclineRate.to_tangent_effective Ops.base 1 0 =
      Except.ok 1 from rfl] at h
    exact absurd h (by simp)

/-- C3 (amended): for every secant-effective value `s ≥ 1`,
`to_nominal(b)` returns `DeclineRateTooHigh` for every exponent `b`, and
`to_tangent_effective(b)` returns `DeclineRateTooHigh` for every `b ≠ 0`,
while `to_tangent_effective(0)` passes the value through as `Ok(s)` without
the check; for every `s < 1` the conversion to nominal succeeds. -/
theorem C3_secant_conversion_errors (ops : Ops) (s b : ℚ) :
    (1 ≤ s → SecantEffectiveDeclineRate.to_nominal ops s b =
        Except.error DeclineCurveAnalysisError.declineRateTooHigh) ∧
    (1 ≤ s → b ≠ 0 → SecantEffectiveDeclineRate.to_tangent_effective ops s b =
        Except.error DeclineCurveAnalysisError.declineRateTooHigh) ∧
    (1 ≤ s → SecantEffectiveDeclineRate.to_tangent_effective ops s 0 = Except.ok s) ∧
    (s < 1 → ∃ r, SecantEffectiveDeclineRate.to_nominal ops s b = Except.ok r) := by
  refine ⟨?_, ?_, ?_, ?_⟩
  · intro hs
    by_cases hb : b = 0
    · simp only [SecantEffectiveDeclineRate.to_nominal, if_pos hb,
        TangentEffectiveDeclineRate.to_nominal, TangentEffectiveDeclineRate.to_nominal_inner,
        if_pos hs]
    · simp only [SecantEffectiveDeclineRate.to_nominal, if_neg hb,
        SecantEffectiveDeclineRate.to_nominal_inner, if_pos hs]
  · intro hs hb
    simp only [SecantEffectiveDeclineRate.to_tangent_effective, if_neg hb,
      SecantEffectiveDeclineRate.to_nominal_inner, if_pos hs, error_bind]
  · intro _
    simp [SecantEffectiveDeclineRate.to_tangent_effective]
  · intro hs
    have hs' : ¬ s ≥ 1 := not_le.mpr hs
    by_cases hb : b = 0
    · exact ⟨-(ops.ln_1p (-s)), by
        simp only [SecantEffectiveDeclineRate.to_nominal, if_pos hb,
          TangentEffectiveDeclineRate.to_nominal, TangentEffectiveDeclineRate.to_nominal_inner,
          if_neg hs']⟩
    · exact ⟨(ops.powf (1 - s) (-b) - 1) / b, by
        simp only [SecantEffectiveDeclineRate.to_nominal, if_neg hb,
          SecantEffectiveDeclineRate.to_nominal_inner, if_neg hs']⟩

/-- Witness for C3: concrete conversions at `s = 2, b = 1/2`, `s = 2, b = 0`
and `s = 1/2, b = 1/2`. -/
theorem C3_secant_conversion_errors_witness :
    ((1:ℚ) ≤ 2) ∧ ((1/2:ℚ) ≠ 0) ∧ ((1/2:ℚ) < 1) ∧
    SecantEffectiveDeclineRate.to_nominal Ops.base 2 (1/2) =
      Except.error DeclineCurveAnalysisError.declineRateTooHigh ∧
    SecantEffectiveDeclineRate.to_tangent_effective Ops.base 2 (1/2) =
      Except.error DeclineCurveAnalysisError.declineRateTooHigh ∧
    SecantEffectiveDeclineRate.to_tangent_effective Ops.base 2 0 = Except.ok 2 ∧
    (∃ r, SecantEffectiveDeclineRate.to_nominal Ops.base (1/2) (1/2) = Except.ok r) :=
  ⟨by norm_num, by norm_num, by norm_num,
   (C3_secant_conversion_errors Ops.base 2 (1/2)).1 (by norm_num),
   (C3_secant_conversion_errors Ops.base 2 (1/2)).2.1 (by norm_num) (by norm_num),
   (C3_secant_conversion_errors Ops.base 2 0).2.2.1 (by norm_num),
   (C3_secant_conversion_errors Ops.base (1/2) (1/2)).2.2.2 (by norm_num)⟩

/-- C9: for every decline-rate value `v`, `NominalDeclineRate::to_secant_effective`
with exponent exactly `0` returns the same numeric value as
`to_tangent_effective` (namely `1 - exp(-v)`), and
`SecantEffectiveDeclineRate::to_nominal` with exponent exactly `0` returns
the same result as `TangentEffectiveDeclineRate::new(v).to_nominal()`: the
`b = 0` case routes through the tangent-effective formula. -/
theorem C9_b_zero_routes_through_tangent (ops : Ops) (v : ℚ) :
    (∃ w, NominalDeclineRate.to_secant_effective ops v 0 = Except.ok w ∧
          NominalDeclineRate.to_tangent_effective ops v = Except.ok w ∧
          w = 1 - ops.exp (-v)) ∧
    SecantEffectiveDeclineRate.to_nominal ops v 0 =
      TangentEffectiveDeclineRate.to_nominal ops v := by
  constructor
  · exact ⟨1 - ops.exp (-v),
      by simp [NominalDeclineRate.to_secant_effective, NominalDeclineRate.to_tangent_effective,
        ok_bind],
      rfl, rfl⟩
  · simp [SecantEffectiveDeclineRate.to_nominal]

/-- C6 counterexample: `validate_positive` applied to negative zero returns
an `InvalidInput` error, not `Ok` as the claim states — `-0.0` has its sign
bit set, `is_sign_negative` is true, and the value is rejected (the source's
own test `validate_positive_rejects_negative_zero` asserts exactly this). -/
theorem C6_counterexample :
    FloatModel.validate_positive FloatModel.negZero "value" =
      Except.error (DeclineCurveAnalysisError.invalidInput
        "value is negative, but expected a positive number") ∧
    FloatModel.validate_positive FloatModel.negZero "value" ≠ Except.ok () := by
  constructor
  · rfl
  · intro h
    rw [show FloatModel.validate_positive FloatModel.negZero "value" =
      Except.error (DeclineCurveAnalysisError.invalidInput
        "value is negative, but expected a positive number") from rfl] at h
    exact absurd h (by simp)

/-- C6 (amended): `validate_positive` applied to negative zero returns an
`InvalidInput` error ("negative"), exactly like `validate_non_zero_positive_rate`
(which reports "negative or zero"); consequently
`Flat::from_incremental_duration` with rate `-0.0` fails its rate validation
for every duration and unit length. -/
theorem C6_negative_zero_rejected (len : ℚ) (duration : FloatModel.Fl) :
    FloatModel.validate_positive FloatModel.negZero "value" =
      Except.error (DeclineCurveAnalysisError.invalidInput
        "value is negative, but expected a positive number") ∧
    FloatModel.validate_non_zero_positive_rate FloatModel.negZero "value" =
      Except.error (DeclineCurveAnalysisError.invalidInput
        "value is negative or zero, but expected a positive number") ∧
    FloatModel.flat_from_incremental_duration len FloatModel.negZero duration =
      Except.error (DeclineCurveAnalysisError.invalidInput
        "rate is negative, but expected a positive number") := by
  refine ⟨rfl, rfl, ?_⟩
  rw [show FloatModel.flat_from_incremental_duration len FloatModel.negZero duration =
    (FloatModel.validate_positive FloatModel.negZero "rate" >>= fun _ =>
      FloatModel.validate_duration len duration >>= fun _ =>
        Except.ok (FloatModel.negZero, duration)) from rfl]
  rw [show FloatModel.validate_positive FloatModel.negZero "rate" =
    Except.error (DeclineCurveAnalysisError.invalidInput
      "rate is negative, but expected a positive number") from rfl]
  rfl

/-- C2: for every valid positive initial rate `qi` and positive decline rate
`Di`, `Exponential::from_incremental_volume` with requested volume at or
above the asymptotic maximum `qi / Di` returns `CannotSolveDecline`; and for
every valid `qi`, positive `Di` and exponent `b` with `0 < b < 1` passing the
exponent validation, `Hyperbolic::from_incremental_volume` with requested
volume at or above `qi / ((1 - b) * Di)` returns `CannotSolveDecline`.  No
segment is constructed in either case. -/
theorem C2_asymptotic_max_volume_rejected (ops : Ops) (len : ℚ) :
    (∀ qi D v : ℚ,
      validate_non_zero_positive_rate qi "initial rate" = .ok () →
      validate_non_zero_decline_rate D "decline rate" = .ok () →
      0 < D → qi / D ≤ v →
      ExponentialParameters.from_incremental_volume ops len qi D v =
        Except.error DeclineCurveAnalysisError.cannotSolveDecline) ∧
    (∀ qi D v b : ℚ,
      validate_non_zero_positive_rate qi "initial rate" = .ok () →
      validate_non_zero_decline_rate D "initial decline rate" = .ok () →
      validate_hyperbolic_exponent b D = .ok () →
      0 < D → 0 < b → b < 1 → qi / ((1 - b) * D) ≤ v →
      HyperbolicParameters.from_incremental_volume ops len qi D v b =
        Except.error DeclineCurveAnalysisError.cannotSolveDecline) := by
  constructor
  · intro qi D v h1 h2 hD hv
    have hqi : EPSILON < qi := (validate_non_zero_positive_rate_ok qi "initial rate").mp h1
    have hv0 : 0 ≤ v := le_trans (le_of_lt (div_pos (lt_trans EPSILON_pos hqi) hD)) hv
    unfold ExponentialParameters.from_incremental_volume
    rw [h1, ok_bind, h2, ok_bind, (validate_incremental_volume_ok v).mpr hv0, ok_bind]
    rw [if_pos ⟨hD, by simp only [approx_gte, decide_eq_true_eq]; linarith [EPSILON_pos]⟩]
  · intro qi D v b h1 h2 hb3 hD hb0 hb1 hv
    have hqi : EPSILON < qi := (validate_non_zero_positive_rate_ok qi "initial rate").mp h1
    have hden : 0 < (1 - b) * D := mul_pos (by linarith) hD
    have hv0 : 0 ≤ v := le_trans (le_of_lt (div_pos (lt_trans EPSILON_pos hqi) hden)) hv
    unfold HyperbolicParameters.from_incremental_volume
    rw [h1, ok_bind, h2, ok_bind, (validate_incremental_volume_ok v).mpr hv0, ok_bind,
      hb3, ok_bind]
    rw [if_pos ⟨hD, hb0, hb1,
      by simp only [approx_gte, decide_eq_true_eq]; linarith [EPSILON_pos]⟩]

/-- Witness for C2: `qi = 1, Di = 1, v = 1 ≥ qi/Di` for the exponential
part and `qi = 1, Di = 1, b = 1/2, v = 2 ≥ qi/((1-b)·Di)` for the
hyperbolic part, in a unit with length 1 (days). -/
theorem C2_asymptotic_max_volume_rejected_witness :
    validate_non_zero_positive_rate 1 "initial rate" = .ok () ∧
    validate_non_zero_decline_rate 1 "decline rate" = .ok () ∧
    validate_non_zero_decline_rate 1 "initial decline rate" = .ok () ∧
    validate_hyperbolic_exponent (1/2) 1 = .ok () ∧
    (0:ℚ) < 1 ∧ (1:ℚ) / 1 ≤ 1 ∧ (0:ℚ) < 1/2 ∧ (1/2:ℚ) < 1 ∧
    (1:ℚ) / ((1 - 1/2) * 1) ≤ 2 ∧
    ExponentialParameters.from_incremental_volume Ops.base 1 1 1 1 =
      Except.error DeclineCurveAnalysisError.cannotSolveDecline ∧
    HyperbolicParameters.from_incremental_volume Ops.base 1 1 1 2 (1/2) =
      Except.error DeclineCurveAnalysisError.cannotSolveDecline :=
  ⟨by rw [validate_non_zero_positive_rate_ok]; norm_num [EPSILON],
   by rw [validate_non_zero_decline_rate_ok]; norm_num [EPSILON],
   by rw [validate_non_zero_decline_rate_ok]; norm_num [EPSILON],
   by rw [validate_hyperbolic_exponent_ok]; norm_num [EPSILON, MAX_EXPONENT, abs_of_pos, abs_of_neg],
   by norm_num, by norm_num, by norm_num, by norm_num, by norm_num,
   (C2_asymptotic_max_volume_rejected Ops.base 1).1 1 1 1
     (by rw [validate_non_zero_positive_rate_ok]; norm_num [EPSILON])
     (by rw [validate_non_zero_decline_rate_ok]; norm_num [EPSILON])
     (by norm_num) (by norm_num),
   (C2_asymptotic_max_volume_rejected Ops.base 1).2 1 1 2 (1/2)
     (by rw [validate_non_zero_positive_rate_ok]; norm_num [EPSILON])
     (by rw [validate_non_zero_decline_rate_ok]; norm_num [EPSILON])
     (by rw [validate_hyperbolic_exponent_ok]; norm_num [EPSILON, MAX_EXPONENT, abs_of_pos, abs_of_neg])
     (by norm_num) (by norm_num) (by norm_num) (by norm_num)⟩

/-- C5: for Harmonic constructors with a negative (incline) decline rate
`Di`, any incremental duration at or beyond the singularity `t_max = -1/Di`
is rejected as `DurationTooLong`: `from_incremental_duration` with duration
`≥ -1/Di` returns `DurationTooLong` and constructs no segment, and every
successfully constructed harmonic segment with `Di < 0` has
`incremental_duration < -1/Di`, whichever constructor built it. -/
theorem C5_harmonic_incline_singularity (ops : Ops) (len : ℚ) :
    (∀ qi D d : ℚ,
      validate_non_zero_positive_rate qi "initial rate" = .ok () →
      validate_non_zero_decline_rate D "initial decline rate" = .ok () →
      D < 0 → -1 / D ≤ d →
      HarmonicParameters.from_incremental_duration len qi D d =
        Except.error DeclineCurveAnalysisError.durationTooLong) ∧
    (∀ (qi D d : ℚ) (p : HarmonicParameters),
      HarmonicParameters.from_incremental_duration len qi D d = .ok p →
      p.initial_decline_rate < 0 →
      p.incremental_duration < -1 / p.initial_decline_rate) ∧
    (∀ (qi D v : ℚ) (p : HarmonicParameters),
      HarmonicParameters.from_incremental_volume ops len qi D v = .ok p →
      p.initial_decline_rate < 0 →
      p.incremental_duration < -1 / p.initial_decline_rate) ∧
    (∀ (qi D Df : ℚ) (p : HarmonicParameters),
      HarmonicParameters.from_final_decline_rate len qi D Df = .ok p →
      p.initial_decline_rate < 0 →
      p.incremental_duration < -1 / p.initial_decline_rate) ∧
    (∀ (qi D qf : ℚ) (p : HarmonicParameters),
      HarmonicParameters.from_final_rate len qi D qf = .ok p →
      p.initial_decline_rate < 0 →
      p.incremental_duration < -1 / p.initial_decline_rate) := by
  refine ⟨?_, ?_, ?_, ?_, ?_⟩
  · intro qi D d h1 h2 hD hd
    have hd0 : 0 ≤ d := le_trans (le_of_lt (neg_one_div_pos_of_neg D hD)) hd
    unfold HarmonicParameters.from_incremental_duration
    rw [h1, ok_bind, h2, ok_bind]
    rcases validate_duration_split len d hd0 with h3 | h3
    · rw [h3, ok_bind, validate_harmonic_singularity_err D d hD hd, error_bind]
    · rw [h3, error_bind]
  · intro qi D d p h hD
    unfold HarmonicParameters.from_incremental_duration at h
    obtain ⟨_, h1, h⟩ := bind_ok_elim h
    obtain ⟨_, h2, h⟩ := bind_ok_elim h
    obtain ⟨_, h3, h⟩ := bind_ok_elim h
    obtain ⟨u, h4, h⟩ := bind_ok_elim h
    cases u
    injection h with h5
    subst h5
    exact validate_harmonic_singularity_ok_lt D d hD h4
  · intro qi D v p h hD
    unfold HarmonicParameters.from_incremental_volume at h
    obtain ⟨_, h1, h⟩ := bind_ok_elim h
    obtain ⟨_, h2, h⟩ := bind_ok_elim h
    obtain ⟨_, h3, h⟩ := bind_ok_elim h
    obtain ⟨_, h4, h⟩ := bind_ok_elim h
    obtain ⟨u, h5, h⟩ := bind_ok_elim h
    cases u
    injection h with h6
    subst h6
    exact validate_harmonic_singularity_ok_lt D _ hD h5
  · intro qi D Df p h hD
    unfold HarmonicParameters.from_final_decline_rate at h
    obtain ⟨_, h1, h⟩ := bind_ok_elim h
    obtain ⟨_, h2, h⟩ := bind_ok_elim h
    obtain ⟨_, h3, h⟩ := bind_ok_elim h
    split at h
    · exact absurd h (by simp)
    · obtain ⟨_, h4, h⟩ := bind_ok_elim h
      obtain ⟨u, h5, h⟩ := bind_ok_elim h
      cases u
      injection h with h6
      subst h6
      exact validate_harmonic_singularity_ok_lt D _ hD h5
  · intro qi D qf p h hD
    unfold HarmonicParameters.from_final_rate at h
    obtain ⟨_, h1, h⟩ := bind_ok_elim h
    obtain ⟨_, h2, h⟩ := bind_ok_elim h
    obtain ⟨_, h3, h⟩ := bind_ok_elim h
    obtain ⟨s, h4, h⟩ := bind_ok_elim h
    cases s with
    | ZeroDuration =>
      injection h with h5
      subst h5
      exact neg_one_div_pos_of_neg D hD
    | Continue =>
      obtain ⟨_, h5, h⟩ := bind_ok_elim h
      obtain ⟨u, h6, h⟩ := bind_ok_elim h
      cases u
      injection h with h7
      subst h7
      exact validate_harmonic_singularity_ok_lt D _ hD h6

/-- Witness for C5: `qi = 1, Di = -1/2, duration = 2 = -1/Di` is rejected as
`DurationTooLong`; `qi = 1, Di = -1/2, duration = 1 < 2` is accepted and its
duration is below the singularity. -/
theorem C5_harmonic_incline_singularity_witness :
    validate_non_zero_positive_rate 1 "initial rate" = .ok () ∧
    validate_non_zero_decline_rate (-1/2) "initial decline rate" = .ok () ∧
    ((-1/2 : ℚ) < 0) ∧ ((-1 : ℚ) / (-1/2) ≤ 2) ∧
    HarmonicParameters.from_incremental_duration 1 1 (-1/2) 2 =
      Except.error DeclineCurveAnalysisError.durationTooLong ∧
    HarmonicParameters.from_incremental_duration 1 1 (-1/2) 1 =
      Except.ok ⟨1, -1/2, 1⟩ ∧
    (HarmonicParameters.incremental_duration ⟨1, -1/2, 1⟩ <
      -1 / HarmonicParameters.initial_decline_rate ⟨1, -1/2, 1⟩) :=
  ⟨by rw [validate_non_zero_positive_rate_ok]; norm_num [EPSILON],
   by rw [validate_non_zero_decline_rate_ok]; norm_num [EPSILON, abs_of_pos, abs_of_neg],
   by norm_num, by norm_num,
   (C5_harmonic_incline_singularity Ops.base 1).1 1 (-1/2) 2
     (by rw [validate_non_zero_positive_rate_ok]; norm_num [EPSILON])
     (by rw [validate_non_zero_decline_rate_ok]; norm_num [EPSILON, abs_of_pos, abs_of_neg])
     (by norm_num) (by norm_num),
   by
     unfold HarmonicParameters.from_incremental_duration
     rw [(validate_non_zero_positive_rate_ok 1 "initial rate").mpr (by norm_num [EPSILON]),
       ok_bind,
       (validate_non_zero_decline_rate_ok (-1/2) "initial decline rate").mpr
         (by norm_num [EPSILON, abs_of_pos, abs_of_neg]),
       ok_bind,
       (validate_duration_ok 1 1).mpr
         (by norm_num [AVERAGE_YEARS_LENGTH, MAX_DURATION_YEARS]),
       ok_bind]
     unfold validate_harmonic_singularity
     norm_num [ok_bind],
   (C5_harmonic_incline_singularity Ops.base 1).2.1 1 (-1/2) 1 ⟨1, -1/2, 1⟩
     (by
       unfold HarmonicParameters.from_incremental_duration
       rw [(validate_non_zero_positive_rate_ok 1 "initial rate").mpr (by norm_num [EPSILON]),
         ok_bind,
         (validate_non_zero_decline_rate_ok (-1/2) "initial decline rate").mpr
           (by norm_num [EPSILON, abs_of_pos, abs_of_neg]),
         ok_bind,
         (validate_duration_ok 1 1).mpr
           (by norm_num [AVERAGE_YEARS_LENGTH, MAX_DURATION_YEARS]),
         ok_bind]
       unfold validate_harmonic_singularity
       norm_num [ok_bind])
     (by norm_num)⟩

/-- C4: for every model exposing `from_final_rate` (Linear, Exponential,
Harmonic, Hyperbolic) and `from_final_decline_rate` (Harmonic, Hyperbolic),
calling the constructor with valid inputs where the final rate (respectively
final decline rate) equals the initial one returns `Ok`, and the returned
segment satisfies `incremental_duration = 0` and `incremental_volume = 0`. -/
theorem C4_zero_duration_shortcut (ops : Ops) (len : ℚ) :
    (∀ qi D : ℚ,
      validate_non_zero_positive_rate qi "initial rate" = .ok () →
      validate_non_zero_decline_rate D "decline rate" = .ok () →
      ∃ p, LinearParameters.from_final_rate len qi D qi = .ok p ∧
        p.incremental_duration = 0 ∧ p.incremental_volume = 0) ∧
    (∀ qi D : ℚ,
      validate_non_zero_positive_rate qi "initial rate" = .ok () →
      validate_non_zero_decline_rate D "decline rate" = .ok () →
      ∃ p, ExponentialParameters.from_final_rate ops len qi D qi = .ok p ∧
        p.incremental_duration = 0 ∧ p.incremental_volume ops = 0) ∧
    (∀ qi D : ℚ,
      validate_non_zero_positive_rate qi "initial rate" = .ok () →
      validate_non_zero_decline_rate D "initial decline rate" = .ok () →
      ∃ p, HarmonicParameters.from_final_rate len qi D qi = .ok p ∧
        p.incremental_duration = 0 ∧ p.incremental_volume ops = 0) ∧
    (∀ qi D b : ℚ,
      validate_non_zero_positive_rate qi "initial rate" = .ok () →
      validate_non_zero_decline_rate D "initial decline rate" = .ok () →
      validate_hyperbolic_exponent b D = .ok () →
      ∃ p, HyperbolicParameters.from_final_rate ops len qi D qi b = .ok p ∧
        p.incremental_duration = 0 ∧ p.incremental_volume ops = 0) ∧
    (∀ qi D : ℚ,
      validate_non_zero_positive_rate qi "initial rate" = .ok () →
      validate_non_zero_decline_rate D "initial decline rate" = .ok () →
      ∃ p, HarmonicParameters.from_final_decline_rate len qi D D = .ok p ∧
        p.incremental_duration = 0 ∧ p.incremental_volume ops = 0) ∧
    (∀ qi D b : ℚ,
      validate_non_zero_positive_rate qi "initial rate" = .ok () →
      validate_non_zero_decline_rate D "initial decline rate" = .ok () →
      validate_hyperbolic_exponent b D = .ok () →
      ∃ p, HyperbolicParameters.from_final_decline_rate len qi D D b = .ok p ∧
        p.incremental_duration = 0 ∧ p.incremental_volume ops = 0) := by
  have name_swap : ∀ (v : ℚ) (n m : String),
      validate_non_zero_positive_rate v n = .ok () →
      validate_non_zero_positive_rate v m = .ok () := by
    intro v n m h
    rw [validate_non_zero_positive_rate_ok] at h ⊢
    exact h
  have decl_name_swap : ∀ (v : ℚ) (n m : String),
      validate_non_zero_decline_rate v n = .ok () →
      validate_non_zero_decline_rate v m = .ok () := by
    intro v n m h
    rw [validate_non_zero_decline_rate_ok] at h ⊢
    exact h
  refine ⟨?_, ?_, ?_, ?_, ?_, ?_⟩
  · intro qi D h1 h2
    have hDnz : ¬ (is_effectively_zero D = true) := by
      rw [is_effectively_zero_iff]
      exact not_le.mpr ((validate_non_zero_decline_rate_ok D "decline rate").mp h2)
    refine ⟨⟨qi, D, 0⟩, ?_, rfl, linear_volume_zero ⟨qi, D, 0⟩ rfl⟩
    unfold LinearParameters.from_final_rate
    rw [h1, ok_bind, h2, ok_bind, name_swap qi "initial rate" "final rate" h1, ok_bind,
      if_neg hDnz]
    have hd : (qi - qi) / (qi * D) = 0 := by rw [sub_self, zero_div]
    rw [hd]
    simp only [validate_duration_zero, ok_bind]
  · intro qi D h1 h2
    refine ⟨⟨qi, D, 0⟩, ?_, rfl, exponential_volume_zero ops ⟨qi, D, 0⟩ rfl⟩
    unfold ExponentialParameters.from_final_rate
    rw [h1, ok_bind, h2, ok_bind, name_swap qi "initial rate" "final rate" h1, ok_bind,
      validate_decline_rate_sign_self D qi, ok_bind]
  · intro qi D h1 h2
    refine ⟨⟨qi, D, 0⟩, ?_, rfl, harmonic_volume_zero ops ⟨qi, D, 0⟩ rfl⟩
    unfold HarmonicParameters.from_final_rate
    rw [h1, ok_bind, h2, ok_bind, name_swap qi "initial rate" "final rate" h1, ok_bind,
      validate_decline_rate_sign_self D qi, ok_bind]
  · intro qi D b h1 h2 hb
    refine ⟨⟨qi, D, 0, b⟩, ?_, rfl, hyperbolic_volume_zero ops ⟨qi, D, 0, b⟩ rfl⟩
    unfold HyperbolicParameters.from_final_rate
    rw [h1, ok_bind, h2, ok_bind, name_swap qi "initial rate" "final rate" h1, ok_bind,
      hb, ok_bind, validate_decline_rate_sign_self D qi, ok_bind]
  · intro qi D h1 h2
    refine ⟨⟨qi, D, 0⟩, ?_, rfl, harmonic_volume_zero ops ⟨qi, D, 0⟩ rfl⟩
    unfold HarmonicParameters.from_final_decline_rate
    rw [h1, ok_bind, h2, ok_bind,
      decl_name_swap D "initial decline rate" "final decline rate" h2, ok_bind,
      if_neg (fun hc => hc rfl : ¬ is_sign_positive D ≠ is_sign_positive D)]
    have hd : 1 / D - 1 / D = 0 := sub_self _
    rw [hd]
    simp only [validate_duration_zero, ok_bind, validate_harmonic_singularity_zero]
  · intro qi D b h1 h2 hb
    have hD0 : D ≠ 0 := by
      have := (validate_non_zero_decline_rate_ok D "initial decline rate").mp h2
      intro hc
      rw [hc, abs_zero] at this
      exact absurd this (not_lt.mpr (le_of_lt EPSILON_pos))
    refine ⟨⟨qi, D, 0, b⟩, ?_, rfl, hyperbolic_volume_zero ops ⟨qi, D, 0, b⟩ rfl⟩
    unfold HyperbolicParameters.from_final_decline_rate
    rw [h1, ok_bind, h2, ok_bind,
      decl_name_swap D "initial decline rate" "final decline rate" h2, ok_bind,
      hb, ok_bind,
      if_neg (fun hc => hc rfl : ¬ is_sign_positive D ≠ is_sign_positive D),
      if_neg (by rintro (⟨_, hDD⟩ | ⟨_, hDD⟩) <;> exact absurd hDD (lt_irrefl D))]
    have hd : (D / D - 1) / (b * D) = 0 := by rw [div_self hD0, sub_self, zero_div]
    rw [hd]
    simp only [validate_duration_zero, ok_bind]

/-- Witness for C4: all six equal-initial-and-final constructions at
`qi = 5, Di = 1/2` (exponent `b = 1/2` for Hyperbolic). -/
theorem C4_zero_duration_shortcut_witness :
    validate_non_zero_positive_rate 5 "initial rate" = .ok () ∧
    validate_non_zero_decline_rate (1/2) "decline rate" = .ok () ∧
    validate_non_zero_decline_rate (1/2) "initial decline rate" = .ok () ∧
    validate_hyperbolic_exponent (1/2) (1/2) = .ok () ∧
    (∃ p, LinearParameters.from_final_rate 1 5 (1/2) 5 = .ok p ∧
      p.incremental_duration = 0 ∧ p.incremental_volume = 0) ∧
    (∃ p, ExponentialParameters.from_final_rate Ops.base 1 5 (1/2) 5 = .ok p ∧
      p.incremental_duration = 0 ∧ p.incremental_volume Ops.base = 0) ∧
    (∃ p, HarmonicParameters.from_final_rate 1 5 (1/2) 5 = .ok p ∧
      p.incremental_duration = 0 ∧ p.incremental_volume Ops.base = 0) ∧
    (∃ p, HyperbolicParameters.from_final_rate Ops.base 1 5 (1/2) 5 (1/2) = .ok p ∧
      p.incremental_duration = 0 ∧ p.incremental_volume Ops.base = 0) ∧
    (∃ p, HarmonicParameters.from_final_decline_rate 1 5 (1/2) (1/2) = .ok p ∧
      p.incremental_duration = 0 ∧ p.incremental_volume Ops.base = 0) ∧
    (∃ p, HyperbolicParameters.from_final_decline_rate 1 5 (1/2) (1/2) (1/2) = .ok p ∧
      p.incremental_duration = 0 ∧ p.incremental_volume Ops.base = 0) :=
  have h1 : validate_non_zero_positive_rate 5 "initial rate" = .ok () := by
    rw [validate_non_zero_positive_rate_ok]; norm_num [EPSILON]
  have h2 : validate_non_zero_decline_rate (1/2) "decline rate" = .ok () := by
    rw [validate_non_zero_decline_rate_ok]; norm_num [EPSILON, abs_of_pos, abs_of_neg]
  have h2' : validate_non_zero_decline_rate (1/2) "initial decline rate" = .ok () := by
    rw [validate_non_zero_decline_rate_ok]; norm_num [EPSILON, abs_of_pos, abs_of_neg]
  have hb : validate_hyperbolic_exponent (1/2) (1/2) = .ok () := by
    rw [validate_hyperbolic_exponent_ok]; norm_num [EPSILON, MAX_EXPONENT, abs_of_pos, abs_of_neg]
  ⟨h1, h2, h2', hb,
   (C4_zero_duration_shortcut Ops.base 1).1 5 (1/2) h1 h2,
   (C4_zero_duration_shortcut Ops.base 1).2.1 5 (1/2) h1 h2,
   (C4_zero_duration_shortcut Ops.base 1).2.2.1 5 (1/2) h1 h2',
   (C4_zero_duration_shortcut Ops.base 1).2.2.2.1 5 (1/2) (1/2) h1 h2' hb,
   (C4_zero_duration_shortcut Ops.base 1).2.2.2.2.1 5 (1/2) h1 h2',
   (C4_zero_duration_shortcut Ops.base 1).2.2.2.2.2 5 (1/2) (1/2) h1 h2' hb⟩

/-- C7 counterexample: with `qi = 1`, `Di = 1/2`, duration `2` (days unit),
every individual input validation passes and the resulting final rate
`qi·(1 - Di·t) = 0` is non-negative, yet `Linear::from_incremental_duration`
returns `InvalidInput` (the final-rate check uses the non-zero-positive-rate
validation, which rejects values within `EPSILON` of zero), contradicting
the claim that `Ok` is returned exactly when the final rate is non-negative. -/
theorem C7_counterexample :
    validate_non_zero_positive_rate 1 "initial rate" = .ok () ∧
    validate_non_zero_decline_rate (1/2) "decline rate" = .ok () ∧
    validate_duration 1 2 = .ok () ∧
    LinearParameters.rate_at_time_without_clamping ⟨1, 1/2, 2⟩ 2 = 0 ∧
    ((0:ℚ) ≤ 0) ∧
    LinearParameters.from_incremental_duration 1 1 (1/2) 2 =
      Except.error (DeclineCurveAnalysisError.invalidInput
        "final rate is negative or zero, but expected a positive number") := by
  have h1 : validate_non_zero_positive_rate 1 "initial rate" = .ok () := by
    rw [validate_non_zero_positive_rate_ok]; norm_num [EPSILON]
  have h2 : validate_non_zero_decline_rate (1/2) "decline rate" = .ok () := by
    rw [validate_non_zero_decline_rate_ok]; norm_num [EPSILON, abs_of_pos, abs_of_neg]
  have h3 : validate_duration 1 2 = .ok () := by
    rw [validate_duration_ok]; norm_num [AVERAGE_YEARS_LENGTH, MAX_DURATION_YEARS]
  have hfr : LinearParameters.rate_at_time_without_clamping ⟨1, 1/2, 2⟩ 2 = 0 := by
    norm_num [LinearParameters.rate_at_time_without_clamping, DCA.mul_add]
  refine ⟨h1, h2, h3, hfr, le_refl 0, ?_⟩
  unfold LinearParameters.from_incremental_duration
  rw [h1, ok_bind, h2, ok_bind, h3, ok_bind]
  simp only []
  rw [hfr, validate_non_zero_positive_rate_err 0 "final rate"
    (Or.inr (by norm_num [EPSILON])), error_bind]
  rfl

/-- C7 (amended): for every `Linear::from_incremental_duration` call whose
initial rate, decline rate and duration individually pass validation, the
constructor returns `Ok` exactly when the resulting final rate
`qi·(1 - Di·t)` passes the non-zero-positive-rate validation (strictly
greater than `EPSILON = 1e-12`); a final rate that is negative or within
`EPSILON` of zero is rejected with `InvalidInput` rather than returned; the
scenario `qi = 50`, `Di = 0.2/yr` (`4/7305` per day), duration `1461` days,
whose final rate is `10` in exact arithmetic, is accepted. -/
theorem C7_linear_final_rate_validation (len qi D d : ℚ)
    (h1 : validate_non_zero_positive_rate qi "initial rate" = .ok ())
    (h2 : validate_non_zero_decline_rate D "decline rate" = .ok ())
    (h3 : validate_duration len d = .ok ()) :
    LinearParameters.from_incremental_duration len qi D d =
      (if EPSILON < DCA.mul_add qi (-D * d) qi
       then Except.ok ⟨qi, D, d⟩
       else Except.error (DeclineCurveAnalysisError.invalidInput
         "final rate is negative or zero, but expected a positive number")) := by
  unfold LinearParameters.from_incremental_duration
  rw [h1, ok_bind, h2, ok_bind, h3, ok_bind]
  simp only [LinearParameters.rate_at_time_without_clamping]
  by_cases hf : EPSILON < DCA.mul_add qi (-D * d) qi
  · rw [(validate_non_zero_positive_rate_ok _ "final rate").mpr hf, ok_bind, if_pos hf]
  · have hcase : DCA.mul_add qi (-D * d) qi < 0 ∨ |DCA.mul_add qi (-D * d) qi| ≤ EPSILON := by
      rcases lt_or_ge (DCA.mul_add qi (-D * d) qi) 0 with hc | hc
      · exact Or.inl hc
      · exact Or.inr (by rw [abs_of_nonneg hc]; exact not_lt.mp hf)
    rw [validate_non_zero_positive_rate_err _ "final rate" hcase, error_bind, if_neg hf]
    rfl

/-- Witness for C7: the spec's literal scenario `qi = 50`, `Di = 0.2/yr`
converted to days (`4/7305`), duration `1461` days; the final rate is `10`
and the construction is accepted. -/
theorem C7_linear_final_rate_validation_witness :
    validate_non_zero_positive_rate 50 "initial rate" = .ok () ∧
    validate_non_zero_decline_rate (4/7305) "decline rate" = .ok () ∧
    validate_duration 1 1461 = .ok () ∧
    DCA.mul_add 50 (-(4/7305) * 1461) 50 = 10 ∧
    LinearParameters.from_incremental_duration 1 50 (4/7305) 1461 =
      Except.ok ⟨50, 4/7305, 1461⟩ :=
  have h1 : validate_non_zero_positive_rate 50 "initial rate" = .ok () := by
    rw [validate_non_zero_positive_rate_ok]; norm_num [EPSILON]
  have h2 : validate_non_zero_decline_rate (4/7305) "decline rate" = .ok () := by
    rw [validate_non_zero_decline_rate_ok]; norm_num [EPSILON, abs_of_pos, abs_of_neg]
  have h3 : validate_duration 1 1461 = .ok () := by
    rw [validate_duration_ok]; norm_num [AVERAGE_YEARS_LENGTH, MAX_DURATION_YEARS]
  ⟨h1, h2, h3, by norm_num [DCA.mul_add], by
    rw [C7_linear_final_rate_validation 1 50 (4/7305) 1461 h1 h2 h3]
    rw [if_pos (by norm_num [DCA.mul_add, EPSILON])]⟩

/-- C8: for `Harmonic::from_final_decline_rate` and
`Hyperbolic::from_final_decline_rate` with otherwise valid inputs: opposite
signs of the initial and final decline rates give `CannotSolveDecline`, and
for a true decline (both rates positive) a final decline rate larger than
the initial one is rejected with an error (Hyperbolic checks it explicitly
and returns `CannotSolveDecline`; Harmonic computes a negative duration,
which the duration validation rejects) — no segment is constructed. -/
theorem C8_final_decline_rate_direction (len : ℚ) :
    (∀ qi D Df : ℚ,
      validate_non_zero_positive_rate qi "initial rate" = .ok () →
      validate_non_zero_decline_rate D "initial decline rate" = .ok () →
      validate_non_zero_decline_rate Df "final decline rate" = .ok () →
      (0 < D ∧ Df < 0) ∨ (D < 0 ∧ 0 < Df) →
      HarmonicParameters.from_final_decline_rate len qi D Df =
        Except.error DeclineCurveAnalysisError.cannotSolveDecline) ∧
    (∀ qi D Df : ℚ,
      validate_non_zero_positive_rate qi "initial rate" = .ok () →
      validate_non_zero_decline_rate D "initial decline rate" = .ok () →
      validate_non_zero_decline_rate Df "final decline rate" = .ok () →
      0 < D → 0 < Df → D < Df →
      ∃ e, HarmonicParameters.from_final_decline_rate len qi D Df = Except.error e) ∧
    (∀ qi D Df b : ℚ,
      validate_non_zero_positive_rate qi "initial rate" = .ok () →
      validate_non_zero_decline_rate D "initial decline rate" = .ok () →
      validate_non_zero_decline_rate Df "final decline rate" = .ok () →
      validate_hyperbolic_exponent b D = .ok () →
      (0 < D ∧ Df < 0) ∨ (D < 0 ∧ 0 < Df) →
      HyperbolicParameters.from_final_decline_rate len qi D Df b =
        Except.error DeclineCurveAnalysisError.cannotSolveDecline) ∧
    (∀ qi D Df b : ℚ,
      validate_non_zero_positive_rate qi "initial rate" = .ok () →
      validate_non_zero_decline_rate D "initial decline rate" = .ok () →
      validate_non_zero_decline_rate Df "final decline rate" = .ok () →
      validate_hyperbolic_exponent b D = .ok () →
      0 < D → 0 < Df → D < Df →
      HyperbolicParameters.from_final_decline_rate len qi D Df b =
        Except.error DeclineCurveAnalysisError.cannotSolveDecline) := by
  refine ⟨?_, ?_, ?_, ?_⟩
  · intro qi D Df h1 h2 h3 hsign
    unfold HarmonicParameters.from_final_decline_rate
    rw [h1, ok_bind, h2, ok_bind, h3, ok_bind, if_pos (sign_ne_of_opposite D Df hsign)]
  · intro qi D Df h1 h2 h3 hD hDf hlt
    have hdur : 1 / Df - 1 / D < 0 :=
      sub_neg.mpr (one_div_lt_one_div_of_lt hD hlt)
    obtain ⟨e, he⟩ := validate_duration_neg_err len (1 / Df - 1 / D) hdur
    refine ⟨e, ?_⟩
    unfold HarmonicParameters.from_final_decline_rate
    rw [h1, ok_bind, h2, ok_bind, h3, ok_bind, if_neg (sign_eq_of_pos D Df hD hDf)]
    simp only []
    rw [he, error_bind]
  · intro qi D Df b h1 h2 h3 hb hsign
    unfold HyperbolicParameters.from_final_decline_rate
    rw [h1, ok_bind, h2, ok_bind, h3, ok_bind, hb, ok_bind,
      if_pos (sign_ne_of_opposite D Df hsign)]
  · intro qi D Df b h1 h2 h3 hb hD hDf hlt
    have hbpos : 0 < b := by
      have hiff := ((validate_hyperbolic_exponent_ok b D).mp hb).2.2.2
      have hb0 : b ≠ 0 := by
        have habs := ((validate_hyperbolic_exponent_ok b D).mp hb).1
        intro hc
        rw [hc, abs_zero] at habs
        exact absurd habs (not_lt.mpr (le_of_lt EPSILON_pos))
      exact lt_of_le_of_ne (hiff.mpr (le_of_lt hD)) (Ne.symm hb0)
    unfold HyperbolicParameters.from_final_decline_rate
    rw [h1, ok_bind, h2, ok_bind, h3, ok_bind, hb, ok_bind,
      if_neg (sign_eq_of_pos D Df hD hDf), if_pos (Or.inl ⟨hbpos, hlt⟩)]

/-- Witness for C8: harmonic and hyperbolic constructions at `qi = 1` with
`Di = 1, Df = -1` (opposite signs) and `Di = 1, Df = 2` (growing magnitude),
exponent `b = 1/2` for the hyperbolic parts. -/
theorem C8_final_decline_rate_direction_witness :
    validate_non_zero_positive_rate 1 "initial rate" = .ok () ∧
    validate_non_zero_decline_rate 1 "initial decline rate" = .ok () ∧
    validate_non_zero_decline_rate (-1) "final decline rate" = .ok () ∧
    validate_non_zero_decline_rate 2 "final decline rate" = .ok () ∧
    validate_hyperbolic_exponent (1/2) 1 = .ok () ∧
    HarmonicParameters.from_final_decline_rate 1 1 1 (-1) =
      Except.error DeclineCurveAnalysisError.cannotSolveDecline ∧
    (∃ e, HarmonicParameters.from_final_decline_rate 1 1 1 2 = Except.error e) ∧
    HyperbolicParameters.from_final_decline_rate 1 1 1 (-1) (1/2) =
      Except.error DeclineCurveAnalysisError.cannotSolveDecline ∧
    HyperbolicParameters.from_final_decline_rate 1 1 1 2 (1/2) =
      Except.error DeclineCurveAnalysisError.cannotSolveDecline :=
  have h1 : validate_non_zero_positive_rate 1 "initial rate" = .ok () := by
    rw [validate_non_zero_positive_rate_ok]; norm_num [EPSILON]
  have h2 : validate_non_zero_decline_rate 1 "initial decline rate" = .ok () := by
    rw [validate_non_zero_decline_rate_ok]; norm_num [EPSILON, abs_of_pos, abs_of_neg]
  have h3n : validate_non_zero_decline_rate (-1) "final decline rate" = .ok () := by
    rw [validate_non_zero_decline_rate_ok]; norm_num [EPSILON, abs_of_pos, abs_of_neg]
  have h3p : validate_non_zero_decline_rate 2 "final decline rate" = .ok () := by
    rw [validate_non_zero_decline_rate_ok]; norm_num [EPSILON, abs_of_pos, abs_of_neg]
  have hb : validate_hyperbolic_exponent (1/2) 1 = .ok () := by
    rw [validate_hyperbolic_exponent_ok]; norm_num [EPSILON, MAX_EXPONENT, abs_of_pos, abs_of_neg]
  ⟨h1, h2, h3n, h3p, hb,
   (C8_final_decline_rate_direction 1).1 1 1 (-1) h1 h2 h3n
     (Or.inl ⟨by norm_num, by norm_num⟩),
   (C8_final_decline_rate_direction 1).2.1 1 1 2 h1 h2 h3p
     (by norm_num) (by norm_num) (by norm_num),
   (C8_final_decline_rate_direction 1).2.2.1 1 1 (-1) (1/2) h1 h2 h3n hb
     (Or.inl ⟨by norm_num, by norm_num⟩),
   (C8_final_decline_rate_direction 1).2.2.2 1 1 2 (1/2) h1 h2 h3p hb
     (by norm_num) (by norm_num) (by norm_num)⟩

/-- C10: every constructor of every segment model stores its input
parameters unchanged: whenever a constructor returns `Ok`, the returned
segment's rate, decline-rate and (for Hyperbolic) exponent fields are
exactly the argument values passed in; only the incremental duration is
ever computed.  (Delay stores no parameter other than the duration.) -/
theorem C10_parameters_stored_unchanged (ops : Ops) (len : ℚ) :
    (∀ (r d : ℚ) (p : FlatParameters),
      FlatParameters.from_incremental_duration len r d = .ok p → p.rate = r) ∧
    (∀ (r v : ℚ) (p : FlatParameters),
      FlatParameters.from_incremental_volume len r v = .ok p → p.rate = r) ∧
    (∀ (qi D d : ℚ) (p : LinearParameters),
      LinearParameters.from_incremental_duration len qi D d = .ok p →
      p.initial_rate = qi ∧ p.decline_rate = D) ∧
    (∀ (qi D v : ℚ) (p : LinearParameters),
      LinearParameters.from_incremental_volume ops len qi D v = .ok p →
      p.initial_rate = qi ∧ p.decline_rate = D) ∧
    (∀ (qi D qf : ℚ) (p : LinearParameters),
      LinearParameters.from_final_rate len qi D qf = .ok p →
      p.initial_rate = qi ∧ p.decline_rate = D) ∧
    (∀ (qi D d : ℚ) (p : ExponentialParameters),
      ExponentialParameters.from_incremental_duration len qi D d = .ok p →
      p.initial_rate = qi ∧ p.decline_rate = D) ∧
    (∀ (qi D v : ℚ) (p : ExponentialParameters),
      ExponentialParameters.from_incremental_volume ops len qi D v = .ok p →
      p.initial_rate = qi ∧ p.decline_rate = D) ∧
    (∀ (qi D qf : ℚ) (p : ExponentialParameters),
      ExponentialParameters.from_final_rate ops len qi D qf = .ok p →
      p.initial_rate = qi ∧ p.decline_rate = D) ∧
    (∀ (qi D d : ℚ) (p : HarmonicParameters),
      HarmonicParameters.from_incremental_duration len qi D d = .ok p →
      p.initial_rate = qi ∧ p.initial_decline_rate = D) ∧
    (∀ (qi D v : ℚ) (p : HarmonicParameters),
      HarmonicParameters.from_incremental_volume ops len qi D v = .ok p →
      p.initial_rate = qi ∧ p.initial_decline_rate = D) ∧
    (∀ (qi D Df : ℚ) (p : HarmonicParameters),
      HarmonicParameters.from_final_decline_rate len qi D Df = .ok p →
      p.initial_rate = qi ∧ p.initial_decline_rate = D) ∧
    (∀ (qi D qf : ℚ) (p : HarmonicParameters),
      HarmonicParameters.from_final_rate len qi D qf = .ok p →
      p.initial_rate = qi ∧ p.initial_decline_rate = D) ∧
    (∀ (qi D d b : ℚ) (p : HyperbolicParameters),
      HyperbolicParameters.from_incremental_duration len qi D d b = .ok p →
      p.initial_rate = qi ∧ p.initial_decline_rate = D ∧ p.exponent = b) ∧
    (∀ (qi D v b : ℚ) (p : HyperbolicParameters),
      HyperbolicParameters.from_incremental_volume ops len qi D v b = .ok p →
      p.initial_rate = qi ∧ p.initial_decline_rate = D ∧ p.exponent = b) ∧
    (∀ (qi D Df b : ℚ) (p : HyperbolicParameters),
      HyperbolicParameters.from_final_decline_rate len qi D Df b = .ok p →
      p.initial_rate = qi ∧ p.initial_decline_rate = D ∧ p.exponent = b) ∧
    (∀ (qi D qf b : ℚ) (p : HyperbolicParameters),
      HyperbolicParameters.from_final_rate ops len qi D qf b = .ok p →
      p.initial_rate = qi ∧ p.initial_decline_rate = D ∧ p.exponent = b) := by
  refine ⟨?_, ?_, ?_, ?_, ?_, ?_, ?_, ?_, ?_, ?_, ?_, ?_, ?_, ?_, ?_, ?_⟩
  · intro r d p h
    unfold FlatParameters.from_incremental_duration at h
    obtain ⟨_, h1, h⟩ := bind_ok_elim h
    obtain ⟨_, h2, h⟩ := bind_ok_elim h
    injection h with h3
    subst h3
    rfl
  · intro r v p h
    unfold FlatParameters.from_incremental_volume at h
    obtain ⟨_, h1, h⟩ := bind_ok_elim h
    obtain ⟨_, h2, h⟩ := bind_ok_elim h
    split at h
    · injection h with h3; subst h3; rfl
    · split at h
      · exact absurd h (by simp)
      · simp only [] at h
        obtain ⟨_, h3, h⟩ := bind_ok_elim h
        injection h with h4
        subst h4
        rfl
  · intro qi D d p h
    unfold LinearParameters.from_incremental_duration at h
    obtain ⟨_, h1, h⟩ := bind_ok_elim h
    obtain ⟨_, h2, h⟩ := bind_ok_elim h
    obtain ⟨_, h3, h⟩ := bind_ok_elim h
    simp only [] at h
    obtain ⟨_, h4, h⟩ := bind_ok_elim h
    injection h with h5
    subst h5
    exact ⟨rfl, rfl⟩
  · intro qi D v p h
    unfold LinearParameters.from_incremental_volume at h
    obtain ⟨_, h1, h⟩ := bind_ok_elim h
    obtain ⟨_, h2, h⟩ := bind_ok_elim h
    obtain ⟨_, h3, h⟩ := bind_ok_elim h
    split at h
    · injection h with h4; subst h4; exact ⟨rfl, rfl⟩
    · simp only [] at h
      split at h
      · exact absurd h (by simp)
      · obtain ⟨_, h4, h⟩ := bind_ok_elim h
        injection h with h5
        subst h5
        exact ⟨rfl, rfl⟩
  · intro qi D qf p h
    unfold LinearParameters.from_final_rate at h
    obtain ⟨_, h1, h⟩ := bind_ok_elim h
    obtain ⟨_, h2, h⟩ := bind_ok_elim h
    obtain ⟨_, h3, h⟩ := bind_ok_elim h
    split at h
    · split at h
      · injection h with h4; subst h4; exact ⟨rfl, rfl⟩
      · exact absurd h (by simp)
    · simp only [] at h
      obtain ⟨_, h4, h⟩ := bind_ok_elim h
      injection h with h5
      subst h5
      exact ⟨rfl, rfl⟩
  · intro qi D d p h
    unfold ExponentialParameters.from_incremental_duration at h
    obtain ⟨_, h1, h⟩ := bind_ok_elim h
    obtain ⟨_, h2, h⟩ := bind_ok_elim h
    obtain ⟨_, h3, h⟩ := bind_ok_elim h
    injection h with h4
    subst h4
    exact ⟨rfl, rfl⟩
  · intro qi D v p h
    unfold ExponentialParameters.from_incremental_volume at h
    obtain ⟨_, h1, h⟩ := bind_ok_elim h
    obtain ⟨_, h2, h⟩ := bind_ok_elim h
    obtain ⟨_, h3, h⟩ := bind_ok_elim h
    split at h
    · exact absurd h (by simp)
    · simp only [] at h
      obtain ⟨_, h4, h⟩ := bind_ok_elim h
      injection h with h5
      subst h5
      exact ⟨rfl, rfl⟩
  · intro qi D qf p h
    unfold ExponentialParameters.from_final_rate at h
    obtain ⟨_, h1, h⟩ := bind_ok_elim h
    obtain ⟨_, h2, h⟩ := bind_ok_elim h
    obtain ⟨_, h3, h⟩ := bind_ok_elim h
    obtain ⟨s, h4, h⟩ := bind_ok_elim h
    cases s with
    | ZeroDuration => injection h with h5; subst h5; exact ⟨rfl, rfl⟩
    | Continue =>
      simp only [] at h
      obtain ⟨_, h5, h⟩ := bind_ok_elim h
      injection h with h6
      subst h6
      exact ⟨rfl, rfl⟩
  · intro qi D d p h
    unfold HarmonicParameters.from_incremental_duration at h
    obtain ⟨_, h1, h⟩ := bind_ok_elim h
    obtain ⟨_, h2, h⟩ := bind_ok_elim h
    obtain ⟨_, h3, h⟩ := bind_ok_elim h
    obtain ⟨_, h4, h⟩ := bind_ok_elim h
    injection h with h5
    subst h5
    exact ⟨rfl, rfl⟩
  · intro qi D v p h
    unfold HarmonicParameters.from_incremental_volume at h
    obtain ⟨_, h1, h⟩ := bind_ok_elim h
    obtain ⟨_, h2, h⟩ := bind_ok_elim h
    obtain ⟨_, h3, h⟩ := bind_ok_elim h
    simp only [] at h
    obtain ⟨_, h4, h⟩ := bind_ok_elim h
    obtain ⟨_, h5, h⟩ := bind_ok_elim h
    injection h with h6
    subst h6
    exact ⟨rfl, rfl⟩
  · intro qi D Df p h
    unfold HarmonicParameters.from_final_decline_rate at h
    obtain ⟨_, h1, h⟩ := bind_ok_elim h
    obtain ⟨_, h2, h⟩ := bind_ok_elim h
    obtain ⟨_, h3, h⟩ := bind_ok_elim h
    split at h
    · exact absurd h (by simp)
    · simp only [] at h
      obtain ⟨_, h4, h⟩ := bind_ok_elim h
      obtain ⟨_, h5, h⟩ := bind_ok_elim h
      injection h with h6
      subst h6
      exact ⟨rfl, rfl⟩
  · intro qi D qf p h
    unfold HarmonicParameters.from_final_rate at h
    obtain ⟨_, h1, h⟩ := bind_ok_elim h
    obtain ⟨_, h2, h⟩ := bind_ok_elim h
    obtain ⟨_, h3, h⟩ := bind_ok_elim h
    obtain ⟨s, h4, h⟩ := bind_ok_elim h
    cases s with
    | ZeroDuration => injection h with h5; subst h5; exact ⟨rfl, rfl⟩
    | Continue =>
      simp only [] at h
      obtain ⟨_, h5, h⟩ := bind_ok_elim h
      obtain ⟨_, h6, h⟩ := bind_ok_elim h
      injection h with h7
      subst h7
      exact ⟨rfl, rfl⟩
  · intro qi D d b p h
    unfold HyperbolicParameters.from_incremental_duration at h
    obtain ⟨_, h1, h⟩ := bind_ok_elim h
    obtain ⟨_, h2, h⟩ := bind_ok_elim h
    obtain ⟨_, h3, h⟩ := bind_ok_elim h
    obtain ⟨_, h4, h⟩ := bind_ok_elim h
    injection h with h5
    subst h5
    exact ⟨rfl, rfl, rfl⟩
  · intro qi D v b p h
    unfold HyperbolicParameters.from_incremental_volume at h
    obtain ⟨_, h1, h⟩ := bind_ok_elim h
    obtain ⟨_, h2, h⟩ := bind_ok_elim h
    obtain ⟨_, h3, h⟩ := bind_ok_elim h
    obtain ⟨_, h4, h⟩ := bind_ok_elim h
    simp only [] at h
    split at h
    · exact absurd h (by simp)
    · obtain ⟨_, h5, h⟩ := bind_ok_elim h
      injection h with h6
      subst h6
      exact ⟨rfl, rfl, rfl⟩
  · intro qi D Df b p h
    unfold HyperbolicParameters.from_final_decline_rate at h
    obtain ⟨_, h1, h⟩ := bind_ok_elim h
    obtain ⟨_, h2, h⟩ := bind_ok_elim h
    obtain ⟨_, h3, h⟩ := bind_ok_elim h
    obtain ⟨_, h4, h⟩ := bind_ok_elim h
    split at h
    · exact absurd h (by simp)
    · split at h
      · exact absurd h (by simp)
      · simp only [] at h
        obtain ⟨_, h5, h⟩ := bind_ok_elim h
        injection h with h6
        subst h6
        exact ⟨rfl, rfl, rfl⟩
  · intro qi D qf b p h
    unfold HyperbolicParameters.from_final_rate at h
    obtain ⟨_, h1, h⟩ := bind_ok_elim h
    obtain ⟨_, h2, h⟩ := bind_ok_elim h
    obtain ⟨_, h3, h⟩ := bind_ok_elim h
    obtain ⟨_, h4, h⟩ := bind_ok_elim h
    obtain ⟨s, h5, h⟩ := bind_ok_elim h
    cases s with
    | ZeroDuration => injection h with h6; subst h6; exact ⟨rfl, rfl, rfl⟩
    | Continue =>
      simp only [] at h
      obtain ⟨_, h6, h⟩ := bind_ok_elim h
      injection h with h7
      subst h7
      exact ⟨rfl, rfl, rfl⟩

/-- Witness for C10: one successful construction per constructor at
`qi = 5, Di = 1/2` (exponent `1/2`, duration `1`, volume `0`, final rate `5`,
final decline rate `1/2`, days unit), each storing its arguments unchanged. -/
theorem C10_parameters_stored_unchanged_witness :
    (FlatParameters.from_incremental_duration 1 5 1 = .ok ⟨5, 1⟩ ∧
      FlatParameters.rate ⟨5, 1⟩ = 5) ∧
    (FlatParameters.from_incremental_volume 1 5 0 = .ok ⟨5, 0⟩ ∧
      FlatParameters.rate ⟨5, 0⟩ = 5) ∧
    (LinearParameters.from_incremental_duration 1 5 (1/2) 1 = .ok ⟨5, 1/2, 1⟩ ∧
      LinearParameters.initial_rate ⟨5, 1/2, 1⟩ = 5 ∧
      LinearParameters.decline_rate ⟨5, 1/2, 1⟩ = 1/2) ∧
    (LinearParameters.from_incremental_volume Ops.base 1 5 (1/2) 0 = .ok ⟨5, 1/2, 0⟩ ∧
      LinearParameters.initial_rate ⟨5, 1/2, 0⟩ = 5 ∧
      LinearParameters.decline_rate ⟨5, 1/2, 0⟩ = 1/2) ∧
    (LinearParameters.from_final_rate 1 5 (1/2) 5 = .ok ⟨5, 1/2, 0⟩ ∧
      LinearParameters.initial_rate ⟨5, 1/2, 0⟩ = 5 ∧
      LinearParameters.decline_rate ⟨5, 1/2, 0⟩ = 1/2) ∧
    (ExponentialParameters.from_incremental_duration 1 5 (1/2) 1 = .ok ⟨5, 1/2, 1⟩ ∧
      ExponentialParameters.initial_rate ⟨5, 1/2, 1⟩ = 5 ∧
      ExponentialParameters.decline_rate ⟨5, 1/2, 1⟩ = 1/2) ∧
    (ExponentialParameters.from_incremental_volume Ops.base 1 5 (1/2) 0 = .ok ⟨5, 1/2, 0⟩ ∧
      ExponentialParameters.initial_rate ⟨5, 1/2, 0⟩ = 5 ∧
      ExponentialParameters.decline_rate ⟨5, 1/2, 0⟩ = 1/2) ∧
    (ExponentialParameters.from_final_rate Ops.base 1 5 (1/2) 5 = .ok ⟨5, 1/2, 0⟩ ∧
      ExponentialParameters.initial_rate ⟨5, 1/2, 0⟩ = 5 ∧
      ExponentialParameters.decline_rate ⟨5, 1/2, 0⟩ = 1/2) ∧
    (HarmonicParameters.from_incremental_duration 1 5 (1/2) 1 = .ok ⟨5, 1/2, 1⟩ ∧
      HarmonicParameters.initial_rate ⟨5, 1/2, 1⟩ = 5 ∧
      HarmonicParameters.initial_decline_rate ⟨5, 1/2, 1⟩ = 1/2) ∧
    (HarmonicParameters.from_incremental_volume Ops.base 1 5 (1/2) 0 = .ok ⟨5, 1/2, 0⟩ ∧
      HarmonicParameters.initial_rate ⟨5, 1/2, 0⟩ = 5 ∧
      HarmonicParameters.initial_decline_rate ⟨5, 1/2, 0⟩ = 1/2) ∧
    (HarmonicParameters.from_final_decline_rate 1 5 (1/2) (1/2) = .ok ⟨5, 1/2, 0⟩ ∧
      HarmonicParameters.initial_rate ⟨5, 1/2, 0⟩ = 5 ∧
      HarmonicParameters.initial_decline_rate ⟨5, 1/2, 0⟩ = 1/2) ∧
    (HarmonicParameters.from_final_rate 1 5 (1/2) 5 = .ok ⟨5, 1/2, 0⟩ ∧
      HarmonicParameters.initial_rate ⟨5, 1/2, 0⟩ = 5 ∧
      HarmonicParameters.initial_decline_rate ⟨5, 1/2, 0⟩ = 1/2) ∧
    (HyperbolicParameters.from_incremental_duration 1 5 (1/2) 1 (1/2) = .ok ⟨5, 1/2, 1, 1/2⟩ ∧
      HyperbolicParameters.initial_rate ⟨5, 1/2, 1, 1/2⟩ = 5 ∧
      HyperbolicParameters.initial_decline_rate ⟨5, 1/2, 1, 1/2⟩ = 1/2 ∧
      HyperbolicParameters.exponent ⟨5, 1/2, 1, 1/2⟩ = 1/2) ∧
    (HyperbolicParameters.from_incremental_volume Ops.base 1 5 (1/2) 0 (1/2) =
        .ok ⟨5, 1/2, 0, 1/2⟩ ∧
      HyperbolicParameters.initial_rate ⟨5, 1/2, 0, 1/2⟩ = 5 ∧
      HyperbolicParameters.initial_decline_rate ⟨5, 1/2, 0, 1/2⟩ = 1/2 ∧
      HyperbolicParameters.exponent ⟨5, 1/2, 0, 1/2⟩ = 1/2) ∧
    (HyperbolicParameters.from_final_decline_rate 1 5 (1/2) (1/2) (1/2) =
        .ok ⟨5, 1/2, 0, 1/2⟩ ∧
      HyperbolicParameters.initial_rate ⟨5, 1/2, 0, 1/2⟩ = 5 ∧
      HyperbolicParameters.initial_decline_rate ⟨5, 1/2, 0, 1/2⟩ = 1/2 ∧
      HyperbolicParameters.exponent ⟨5, 1/2, 0, 1/2⟩ = 1/2) ∧
    (HyperbolicParameters.from_final_rate Ops.base 1 5 (1/2) 5 (1/2) =
        .ok ⟨5, 1/2, 0, 1/2⟩ ∧
      HyperbolicParameters.initial_rate ⟨5, 1/2, 0, 1/2⟩ = 5 ∧
      HyperbolicParameters.initial_decline_rate ⟨5, 1/2, 0, 1/2⟩ = 1/2 ∧
      HyperbolicParameters.exponent ⟨5, 1/2, 0, 1/2⟩ = 1/2) := by
  have hq : validate_non_zero_positive_rate 5 "initial rate" = .ok () := by
    rw [validate_non_zero_positive_rate_ok]; norm_num [EPSILON]
  have hr : validate_positive 5 "rate" = .ok () := by
    rw [validate_positive_ok]; norm_num
  have hfinr : validate_non_zero_positive_rate 5 "final rate" = .ok () := by
    rw [validate_non_zero_positive_rate_ok]; norm_num [EPSILON]
  have hD : validate_non_zero_decline_rate (1/2) "decline rate" = .ok () := by
    rw [validate_non_zero_decline_rate_ok]; norm_num [EPSILON, abs_of_pos, abs_of_neg]
  have hDi : validate_non_zero_decline_rate (1/2) "initial decline rate" = .ok () := by
    rw [validate_non_zero_decline_rate_ok]; norm_num [EPSILON, abs_of_pos, abs_of_neg]
  have hDf : validate_non_zero_decline_rate (1/2) "final decline rate" = .ok () := by
    rw [validate_non_zero_decline_rate_ok]; norm_num [EPSILON, abs_of_pos, abs_of_neg]
  have hd1 : validate_duration 1 1 = .ok () := by
    rw [validate_duration_ok]; norm_num [AVERAGE_YEARS_LENGTH, MAX_DURATION_YEARS]
  have hv0 : validate_incremental_volume 0 = .ok () :=
    (validate_incremental_volume_ok 0).mpr (le_refl 0)
  have hb : validate_hyperbolic_exponent (1/2) (1/2) = .ok () := by
    rw [validate_hyperbolic_exponent_ok]; norm_num [EPSILON, MAX_EXPONENT, abs_of_pos, abs_of_neg]
  have hz : is_effectively_zero (0:ℚ) = true := by
    rw [is_effectively_zero_iff]; norm_num [EPSILON]
  have hDnz : ¬ is_effectively_zero ((1:ℚ)/2) = true := by
    rw [is_effectively_zero_iff]; norm_num [EPSILON, abs_of_pos, abs_of_neg]
  have hsing1 : validate_harmonic_singularity (1/2) 1 = .ok () := by
    unfold validate_harmonic_singularity
    norm_num
  have hF1 : FlatParameters.from_incremental_duration 1 5 1 = .ok ⟨5, 1⟩ := by
    unfold FlatParameters.from_incremental_duration
    rw [hr, ok_bind, hd1, ok_bind]
  have hF2 : FlatParameters.from_incremental_volume 1 5 0 = .ok ⟨5, 0⟩ := by
    unfold FlatParameters.from_incremental_volume
    rw [hr, ok_bind, hv0, ok_bind, if_pos hz]
  have hL1 : LinearParameters.from_incremental_duration 1 5 (1/2) 1 = .ok ⟨5, 1/2, 1⟩ := by
    unfold LinearParameters.from_incremental_duration
    rw [hq, ok_bind, hD, ok_bind, hd1, ok_bind]
    simp only []
    rw [show LinearParameters.rate_at_time_without_clamping ⟨5, 1/2, 1⟩ 1 = 5/2 from by
      norm_num [LinearParameters.rate_at_time_without_clamping, DCA.mul_add]]
    rw [(validate_non_zero_positive_rate_ok (5/2) "final rate").mpr (by norm_num [EPSILON]),
      ok_bind]
  have hL2 : LinearParameters.from_incremental_volume Ops.base 1 5 (1/2) 0 =
      .ok ⟨5, 1/2, 0⟩ := by
    unfold LinearParameters.from_incremental_volume
    rw [hq, ok_bind, hD, ok_bind, hv0, ok_bind, if_pos hz]
  have hL3 : LinearParameters.from_final_rate 1 5 (1/2) 5 = .ok ⟨5, 1/2, 0⟩ := by
    unfold LinearParameters.from_final_rate
    rw [hq, ok_bind, hD, ok_bind, hfinr, ok_bind, if_neg hDnz]
    simp only []
    rw [show ((5:ℚ) - 5) / (5 * (1/2)) = 0 from by norm_num]
    simp only [validate_duration_zero, ok_bind]
  have hE1 : ExponentialParameters.from_incremental_duration 1 5 (1/2) 1 =
      .ok ⟨5, 1/2, 1⟩ := by
    unfold ExponentialParameters.from_incremental_duration
    rw [hq, ok_bind, hD, ok_bind, hd1, ok_bind]
  have hE2 : ExponentialParameters.from_incremental_volume Ops.base 1 5 (1/2) 0 =
      .ok ⟨5, 1/2, 0⟩ := by
    unfold ExponentialParameters.from_incremental_volume
    rw [hq, ok_bind, hD, ok_bind, hv0, ok_bind]
    rw [if_neg (by
      rintro ⟨_, hg⟩
      simp only [approx_gte, decide_eq_true_eq] at hg
      norm_num [EPSILON] at hg)]
    simp only []
    rw [show -(Ops.base.ln_1p ((-0 * (1/2)) / 5)) / (1/2) = (0:ℚ) from by norm_num [Ops.base]]
    simp only [validate_duration_zero, ok_bind]
  have hE3 : ExponentialParameters.from_final_rate Ops.base 1 5 (1/2) 5 =
      .ok ⟨5, 1/2, 0⟩ := by
    unfold ExponentialParameters.from_final_rate
    rw [hq, ok_bind, hD, ok_bind, hfinr, ok_bind, validate_decline_rate_sign_self, ok_bind]
  have hH1 : HarmonicParameters.from_incremental_duration 1 5 (1/2) 1 = .ok ⟨5, 1/2, 1⟩ := by
    unfold HarmonicParameters.from_incremental_duration
    rw [hq, ok_bind, hDi, ok_bind, hd1, ok_bind, hsing1, ok_bind]
  have hH2 : HarmonicParameters.from_incremental_volume Ops.base 1 5 (1/2) 0 =
      .ok ⟨5, 1/2, 0⟩ := by
    unfold HarmonicParameters.from_incremental_volume
    rw [hq, ok_bind, hDi, ok_bind, hv0, ok_bind]
    simp only []
    rw [show Ops.base.exp_m1 ((0 * (1/2)) / 5) / (1/2) = (0:ℚ) from by norm_num [Ops.base]]
    simp only [validate_duration_zero, ok_bind, validate_harmonic_singularity_zero]
  have hH3 : HarmonicParameters.from_final_decline_rate 1 5 (1/2) (1/2) =
      .ok ⟨5, 1/2, 0⟩ := by
    unfold HarmonicParameters.from_final_decline_rate
    rw [hq, ok_bind, hDi, ok_bind, hDf, ok_bind,
      if_neg (sign_eq_of_pos (1/2) (1/2) (by norm_num) (by norm_num))]
    simp only []
    rw [show (1:ℚ) / (1/2) - 1 / (1/2) = 0 from by norm_num]
    simp only [validate_duration_zero, ok_bind, validate_harmonic_singularity_zero]
  have hH4 : HarmonicParameters.from_final_rate 1 5 (1/2) 5 = .ok ⟨5, 1/2, 0⟩ := by
    unfold HarmonicParameters.from_final_rate
    rw [hq, ok_bind, hDi, ok_bind, hfinr, ok_bind, validate_decline_rate_sign_self, ok_bind]
  have hY1 : HyperbolicParameters.from_incremental_duration 1 5 (1/2) 1 (1/2) =
      .ok ⟨5, 1/2, 1, 1/2⟩ := by
    unfold HyperbolicParameters.from_incremental_duration
    rw [hq, ok_bind, hDi, ok_bind, hd1, ok_bind, hb, ok_bind]
  have hY2 : HyperbolicParameters.from_incremental_volume Ops.base 1 5 (1/2) 0 (1/2) =
      .ok ⟨5, 1/2, 0, 1/2⟩ := by
    unfold HyperbolicParameters.from_incremental_volume
    rw [hq, ok_bind, hDi, ok_bind, hv0, ok_bind, hb, ok_bind]
    rw [if_neg (by
      rintro ⟨_, _, _, hg⟩
      simp only [approx_gte, decide_eq_true_eq] at hg
      norm_num [EPSILON] at hg)]
    simp only []
    rw [show (Ops.base.powf (1 - 0 * (1/2) * (1 - 1/2) / 5) (-(1/2) / (1 - 1/2)) - 1) /
        ((1/2) * (1/2)) = (0:ℚ) from by norm_num [Ops.base]]
    simp only [validate_duration_zero, ok_bind]
  have hY3 : HyperbolicParameters.from_final_decline_rate 1 5 (1/2) (1/2) (1/2) =
      .ok ⟨5, 1/2, 0, 1/2⟩ := by
    unfold HyperbolicParameters.from_final_decline_rate
    rw [hq, ok_bind, hDi, ok_bind, hDf, ok_bind, hb, ok_bind,
      if_neg (sign_eq_of_pos (1/2) (1/2) (by norm_num) (by norm_num)),
      if_neg (by rintro (⟨_, hx⟩ | ⟨_, hx⟩) <;> exact absurd hx (lt_irrefl _))]
    simp only []
    rw [show ((1/2:ℚ) / (1/2) - 1) / ((1/2) * (1/2)) = 0 from by norm_num]
    simp only [validate_duration_zero, ok_bind]
  have hY4 : HyperbolicParameters.from_final_rate Ops.base 1 5 (1/2) 5 (1/2) =
      .ok ⟨5, 1/2, 0, 1/2⟩ := by
    unfold HyperbolicParameters.from_final_rate
    rw [hq, ok_bind, hDi, ok_bind, hfinr, ok_bind, hb, ok_bind,
      validate_decline_rate_sign_self, ok_bind]
  obtain ⟨t1, t2, t3, t4, t5, t6, t7, t8, t9, t10, t11, t12, t13, t14, t15, t16⟩ :=
    C10_parameters_stored_unchanged Ops.base 1
  exact ⟨⟨hF1, t1 5 1 ⟨5, 1⟩ hF1⟩, ⟨hF2, t2 5 0 ⟨5, 0⟩ hF2⟩,
    ⟨hL1, t3 5 (1/2) 1 ⟨5, 1/2, 1⟩ hL1⟩, ⟨hL2, t4 5 (1/2) 0 ⟨5, 1/2, 0⟩ hL2⟩,
    ⟨hL3, t5 5 (1/2) 5 ⟨5, 1/2, 0⟩ hL3⟩, ⟨hE1, t6 5 (1/2) 1 ⟨5, 1/2, 1⟩ hE1⟩,
    ⟨hE2, t7 5 (1/2) 0 ⟨5, 1/2, 0⟩ hE2⟩, ⟨hE3, t8 5 (1/2) 5 ⟨5, 1/2, 0⟩ hE3⟩,
    ⟨hH1, t9 5 (1/2) 1 ⟨5, 1/2, 1⟩ hH1⟩, ⟨hH2, t10 5 (1/2) 0 ⟨5, 1/2, 0⟩ hH2⟩,
    ⟨hH3, t11 5 (1/2) (1/2) ⟨5, 1/2, 0⟩ hH3⟩, ⟨hH4, t12 5 (1/2) 5 ⟨5, 1/2, 0⟩ hH4⟩,
    ⟨hY1, t13 5 (1/2) 1 (1/2) ⟨5, 1/2, 1, 1/2⟩ hY1⟩,
    ⟨hY2, t14 5 (1/2) 0 (1/2) ⟨5, 1/2, 0, 1/2⟩ hY2⟩,
    ⟨hY3, t15 5 (1/2) (1/2) (1/2) ⟨5, 1/2, 0, 1/2⟩ hY3⟩,
    ⟨hY4, t16 5 (1/2) 5 (1/2) ⟨5, 1/2, 0, 1/2⟩ hY4⟩⟩
